import Mathlib

/-!
Verification of the tile-grid core of the `open-theft-auto` repository.

The development shallowly embeds the data model and operations of
`src/src/TileGrid.cpp`, `src/src/Tile.cpp`, `src/src/LevelSerialization.cpp`
(with headers `Tile.hpp`, `TileGrid.hpp`, `LevelData.hpp`).

Modelling conventions:
* C++ `int` is modelled as `Int` (with the `std::stoi` range check kept where
  the code can observe it), C++ `float` as `ℚ` (exact rational arithmetic;
  binary floating-point rounding and decimal float formatting are not
  representable and are abstracted away).
* The line-oriented level file is modelled at the directive level: a file is a
  `List Line` where each `Line` carries the whitespace-separated tokens the
  writer emits for that command.  Tile/fill property tokens are kept as raw
  `key`/`value` strings so the string-level parsing (case folding, `:` and `-`
  splitting, `wall_` prefixes) is embedded faithfully; numeric fields of
  `grid`/`tile_size`/`vehicle` lines carry the parsed numeric value.
* Texture handles (`std::shared_ptr<Texture>`) and the texture cache perform
  file I/O and only populate render state; they are not represented.  All
  claims are about the `texturePath` strings, which the embedding keeps.
-/

/-- Integer 3-vector, modelling `glm::ivec3`. -/
structure IVec3 where
  x : Int
  y : Int
  z : Int
deriving DecidableEq, Repr

/-- Rational 3-vector, modelling `glm::vec3` (floats as exact rationals). -/
structure Vec3 where
  x : ℚ
  y : ℚ
  z : ℚ
deriving DecidableEq, Repr

/-- Wall directions, from `Tile.hpp`: North = 0 (-Y), South = 1 (+Y),
East = 2 (-X), West = 3 (+X). -/
inductive WallDirection where
  | north
  | south
  | east
  | west
deriving DecidableEq, Repr

/-- Car/traffic directions on a tile's top surface, from `Tile.hpp`. -/
inductive CarDirection where
  | none
  | north
  | south
  | east
  | west
  | northSouth
  | eastWest
deriving DecidableEq, Repr

/-- `WallData` from `Tile.hpp` (texture handle omitted). -/
structure WallData where
  walkable : Bool
  texturePath : String
deriving DecidableEq, Repr

/-- `TopSurfaceData` from `Tile.hpp` (texture handle omitted). -/
structure TopSurfaceData where
  solid : Bool
  texturePath : String
  carDirection : CarDirection
deriving DecidableEq, Repr

/-- A `Tile` from `Tile.hpp`: grid position, the four-slot wall array and
the top surface.  The derived world position, tile size copy and cached
meshes are render state and are omitted. -/
structure Tile where
  gridPosition : IVec3
  wallNorth : WallData
  wallSouth : WallData
  wallEast : WallData
  wallWest : WallData
  topSurface : TopSurfaceData
deriving DecidableEq, Repr

/-- Wall lookup, modelling `Tile::getWall` on the 4-slot array. -/
def Tile.getWall (t : Tile) : WallDirection → WallData
  | .north => t.wallNorth
  | .south => t.wallSouth
  | .east => t.wallEast
  | .west => t.wallWest

/-- `Tile::isWallWalkable`. -/
def Tile.isWallWalkable (t : Tile) (dir : WallDirection) : Bool :=
  (t.getWall dir).walkable

/-- `Tile::setWall(dir, walkable, texturePath)`. -/
def Tile.setWall (t : Tile) (dir : WallDirection) (walkable : Bool)
    (texturePath : String) : Tile :=
  match dir with
  | .north => { t with wallNorth := ⟨walkable, texturePath⟩ }
  | .south => { t with wallSouth := ⟨walkable, texturePath⟩ }
  | .east => { t with wallEast := ⟨walkable, texturePath⟩ }
  | .west => { t with wallWest := ⟨walkable, texturePath⟩ }

/-- `Tile::setTopSurface(solid, texturePath, carDir)`. -/
def Tile.setTopSurface (t : Tile) (solid : Bool) (texturePath : String)
    (carDir : CarDirection) : Tile :=
  { t with topSurface := ⟨solid, texturePath, carDir⟩ }

/-- `Tile::setCarDirection`. -/
def Tile.setCarDirection (t : Tile) (dir : CarDirection) : Tile :=
  { t with topSurface := { t.topSurface with carDirection := dir } }

/-- `Tile::isTopSolid`. -/
def Tile.isTopSolid (t : Tile) : Bool :=
  t.topSurface.solid

/-- The `Tile` constructor (`Tile.cpp`): all four walls walkable without
texture, top surface not solid, no car direction. -/
def defaultTile (pos : IVec3) : Tile :=
  { gridPosition := pos
    wallNorth := ⟨true, ""⟩
    wallSouth := ⟨true, ""⟩
    wallEast := ⟨true, ""⟩
    wallWest := ⟨true, ""⟩
    topSurface := ⟨false, "", .none⟩ }

/-- `Tile::copyFrom` (`Tile.cpp`): copies the top surface and the four
walls from `other` into `t`, keeping `t`'s own grid position; cached
meshes are discarded (not modelled). -/
def Tile.copyFrom (t other : Tile) : Tile :=
  { t with
      topSurface := other.topSurface
      wallNorth := other.wallNorth
      wallSouth := other.wallSouth
      wallEast := other.wallEast
      wallWest := other.wallWest }

/-- `TileGrid::VehicleSpawn` from `TileGrid.hpp`. -/
structure VehicleSpawn where
  gridPosition : IVec3
  rotationDegrees : ℚ
  texturePath : String
  size : ℚ × ℚ
deriving DecidableEq, Repr

/-- `VehicleSpawnDefinition` from `LevelData.hpp` (field-for-field the same
record, held in the level-data container instead of the grid). -/
structure VehicleSpawnDefinition where
  gridPosition : IVec3
  rotationDegrees : ℚ
  texturePath : String
  size : ℚ × ℚ
deriving DecidableEq, Repr

/-- `LevelData` from `LevelData.hpp`. -/
structure LevelData where
  vehicleSpawns : List VehicleSpawnDefinition
deriving DecidableEq, Repr

/-- Association list used to model `std::unordered_map<std::string,
std::string>`; only first-occurrence lookup and in-place overwrite are
used, so list order never influences map semantics when keys are unique. -/
abbrev AliasMap := List (String × String)

/-- Map lookup (first binding wins). -/
def mapFind : AliasMap → String → Option String
  | [], _ => none
  | (k, v) :: rest, key => if k = key then some v else mapFind rest key

/-- Map assignment `m[k] = v`: overwrite the first binding of `k`, or
append a new binding. -/
def mapInsert : AliasMap → String → String → AliasMap
  | [], k, v => [(k, v)]
  | (k', v') :: rest, k, v =>
      if k' = k then (k, v) :: rest else (k', v') :: mapInsert rest k v

/-- Flat-index encoding of `TileGrid::getIndex`, in `Nat` form:
`index = x + y*W + z*W*H`. -/
def encodeIdx (w h : Nat) (x y z : Nat) : Nat :=
  x + y * w + z * w * h

/-- The dense tile array built by `TileGrid::rebuildTiles`: one tile per
cell, in x-fastest, then y, then z order, i.e. the tile at flat index `i`
is the cell `(i % w, i / w % h, i / (w*h))`. -/
def buildTiles (w h d : Nat) (f : Nat → Nat → Nat → Tile) : List Tile :=
  (List.range (w * h * d)).map fun i => f (i % w) (i / w % h) (i / (w * h))

/-- The `TileGrid` state from `TileGrid.hpp` (texture cache omitted; see
module header). -/
structure TileGrid where
  gridSize : IVec3
  tileSize : ℚ
  tiles : List Tile
  textureAliases : AliasMap
  vehicleSpawns : List VehicleSpawn
deriving DecidableEq, Repr

namespace TileGrid

/-- `TileGrid::getIndex`. -/
def getIndex (g : TileGrid) (x y z : Int) : Int :=
  x + y * g.gridSize.x + z * g.gridSize.x * g.gridSize.y

/-- `TileGrid::isValidPosition(int,int,int)`. -/
def isValidPosition (g : TileGrid) (x y z : Int) : Bool :=
  decide (0 ≤ x) && decide (x < g.gridSize.x) &&
  decide (0 ≤ y) && decide (y < g.gridSize.y) &&
  decide (0 ≤ z) && decide (z < g.gridSize.z)

/-- `TileGrid::isValidPosition(const glm::ivec3&)`. -/
def isValidPositionV (g : TileGrid) (p : IVec3) : Bool :=
  g.isValidPosition p.x p.y p.z

/-- `TileGrid::getTile`: bounds check, then the flat vector access
`m_tiles[index]`.  The vector access is modelled by `List.getElem?` so an
out-of-range index is visible as `none` rather than undefined behaviour. -/
def getTile (g : TileGrid) (p : IVec3) : Option Tile :=
  if g.isValidPosition p.x p.y p.z then
    g.tiles[(g.getIndex p.x p.y p.z).toNat]?
  else
    none

/-- In-place mutation of the tile returned by `getTile` (the C++ callers
write through the returned `Tile*`). -/
def setTile (g : TileGrid) (p : IVec3) (t : Tile) : TileGrid :=
  if g.isValidPosition p.x p.y p.z then
    { g with tiles := g.tiles.set (g.getIndex p.x p.y p.z).toNat t }
  else
    g

/-- Well-formedness: the dense tile array has exactly one slot per cell,
as established by `rebuildTiles`. -/
def WF (g : TileGrid) : Prop :=
  g.tiles.length = g.gridSize.x.toNat * g.gridSize.y.toNat * g.gridSize.z.toNat

instance (g : TileGrid) : Decidable g.WF := by
  unfold WF; infer_instance

/-- `TileGrid::rebuildTiles`: fails (returning `none`, state untouched) if
any dimension is ≤ 0; otherwise discards all tiles and the grid's own
vehicle spawns and reallocates default tiles at the current size. -/
def rebuildTiles (g : TileGrid) : Option TileGrid :=
  if g.gridSize.x ≤ 0 ∨ g.gridSize.y ≤ 0 ∨ g.gridSize.z ≤ 0 then
    none
  else
    some { g with
            tiles := buildTiles g.gridSize.x.toNat g.gridSize.y.toNat g.gridSize.z.toNat
              (fun x y z => defaultTile ⟨x, y, z⟩)
            vehicleSpawns := [] }

/-- `TileGrid::resolveTexturePath`: alias target if registered, else the
identifier unchanged. -/
def resolveTexturePath (g : TileGrid) (identifier : String) : String :=
  (mapFind g.textureAliases identifier).getD identifier

/-- `TileGrid::hasGroundSupport`: the tile one layer below exists and has
a solid top surface. -/
def hasGroundSupport (g : TileGrid) (tilePos : IVec3) : Bool :=
  if tilePos.z - 1 < 0 then
    false
  else
    match g.getTile ⟨tilePos.x, tilePos.y, tilePos.z - 1⟩ with
    | none => false
    | some groundTile => groundTile.isTopSolid

/-- `TileGrid::gridToWorld`. -/
def gridToWorld (g : TileGrid) (gridPos : IVec3) : Vec3 :=
  ⟨gridPos.x * g.tileSize, gridPos.y * g.tileSize, (gridPos.z - 1) * g.tileSize⟩

/-- `TileGrid::worldToGrid`. -/
def worldToGrid (g : TileGrid) (worldPos : Vec3) : IVec3 :=
  ⟨⌊(worldPos.x + g.tileSize / 2) / g.tileSize⌋,
   ⌊(worldPos.y + g.tileSize / 2) / g.tileSize⌋,
   ⌊(worldPos.z + g.tileSize) / g.tileSize⌋⟩

/-- The direction table of `TileGrid::canOccupy`: `diff.x == 1` selects
(West, East), `diff.x == -1` (East, West), `diff.y == 1`
(South, North), `diff.y == -1` (North, South). -/
def stepDirs (dx dy : Int) : Option (WallDirection × WallDirection) :=
  if dx = 1 then some (.west, .east)
  else if dx = -1 then some (.east, .west)
  else if dy = 1 then some (.south, .north)
  else if dy = -1 then some (.north, .south)
  else none

/-- The body of `TileGrid::canOccupy` after both world positions have been
converted to grid cells (`diff = endTile - startTile` written inline). -/
def canOccupyCells (g : TileGrid) (startTile endTile : IVec3) : Bool :=
  if ¬ g.isValidPosition startTile.x startTile.y startTile.z then
    false
  else if ¬ g.isValidPosition endTile.x endTile.y endTile.z then
    false
  else if startTile = endTile then
    g.hasGroundSupport endTile
  else if endTile.z - startTile.z ≠ 0 then
    false
  else if 1 < (endTile.x - startTile.x).natAbs + (endTile.y - startTile.y).natAbs then
    false
  else
    match stepDirs (endTile.x - startTile.x) (endTile.y - startTile.y) with
    | none => g.hasGroundSupport endTile
    | some fromTo =>
        match g.getTile startTile, g.getTile endTile with
        | some fromTile, some toTile =>
            if ¬ fromTile.isWallWalkable fromTo.1 ∨ ¬ toTile.isWallWalkable fromTo.2 then
              false
            else
              g.hasGroundSupport endTile
        | _, _ => false

/-- `TileGrid::canOccupy`. -/
def canOccupy (g : TileGrid) (startPos endPos : Vec3) : Bool :=
  g.canOccupyCells (g.worldToGrid startPos) (g.worldToGrid endPos)

/-- `TileGrid::findVehicleSpawn`: first spawn with the given grid
position. -/
def findVehicleSpawn (g : TileGrid) (gridPos : IVec3) : Option VehicleSpawn :=
  g.vehicleSpawns.find? fun spawn => spawn.gridPosition = gridPos

/-- Rotation normalization in `TileGrid::addOrUpdateVehicleSpawn`: the two
`while` loops add/subtract 360 until the value lies in `[0, 360)`, which
is exactly the reduction `r - 360 * ⌊r / 360⌋`. -/
def normalizeRotation (r : ℚ) : ℚ :=
  r - 360 * ⌊r / 360⌋

/-- The normalization applied by `TileGrid::addOrUpdateVehicleSpawn`
before the spawn is stored. -/
def normalizeSpawn (g : TileGrid) (spawn : VehicleSpawn) : VehicleSpawn :=
  { spawn with
      texturePath :=
        if spawn.texturePath = "" then g.resolveTexturePath "car" else spawn.texturePath
      rotationDegrees := normalizeRotation spawn.rotationDegrees
      size := (if spawn.size.1 ≤ 0 then (3 / 2 : ℚ) else spawn.size.1,
               if spawn.size.2 ≤ 0 then (3 : ℚ) else spawn.size.2) }

/-- Replace the first spawn with the same grid position, else append
(`find_if` + assignment / `push_back` in the C++). -/
def upsertSpawn : List VehicleSpawn → VehicleSpawn → List VehicleSpawn
  | [], n => [n]
  | s :: rest, n =>
      if s.gridPosition = n.gridPosition then n :: rest else s :: upsertSpawn rest n

/-- `TileGrid::addOrUpdateVehicleSpawn`. -/
def addOrUpdateVehicleSpawn (g : TileGrid) (spawn : VehicleSpawn) : TileGrid :=
  if g.isValidPositionV spawn.gridPosition then
    { g with vehicleSpawns := upsertSpawn g.vehicleSpawns (g.normalizeSpawn spawn) }
  else
    g

end TileGrid

/-! String helpers shared (with identical bodies) by `TileGrid::loadFromFile`
and `LevelSerialization::loadLevel`. -/

/-- `trimCopy`: strip leading and trailing whitespace. -/
def trimCopy (s : String) : String :=
  String.mk (((s.data.dropWhile Char.isWhitespace).reverse.dropWhile Char.isWhitespace).reverse)

/-- `toLowerCopy`: ASCII lower-casing of every character. -/
def toLowerCopy (s : String) : String :=
  String.mk (s.data.map Char.toLower)

/-- Split a character list at the first occurrence of `c`
(`std::string::find` + the two `substr` calls); `none` when absent. -/
def breakAt (c : Char) : List Char → Option (List Char × List Char)
  | [] => none
  | a :: rest =>
      if a = c then some ([], rest)
      else (breakAt c rest).map fun pr => (a :: pr.1, pr.2)

/-- Decimal value of a digit list (most significant first). -/
def digitsVal (cs : List Char) : Nat :=
  cs.foldl (fun acc c => acc * 10 + (c.toNat - 48)) 0

/-- A non-empty all-digit character list, parsed; `none` otherwise. -/
def decDigits? (cs : List Char) : Option Nat :=
  if cs ≠ [] ∧ cs.all Char.isDigit then some (digitsVal cs) else none

/-- The `int` range accepted by `std::stoi` (outside it the call throws
`out_of_range` and `parseInt` reports failure). -/
def intFits (v : Int) : Bool :=
  decide (-2147483648 ≤ v) && decide (v ≤ 2147483647)

/-- Value of a successful `std::stoi`: the number when in range, failure
(a caught `out_of_range`) otherwise. -/
def intResult (v : Int) : Option Int :=
  if intFits v then some v else none

/-- The `parseInt` lambda: `std::stoi` followed by the check that the whole
(trimmed) token was consumed, i.e. the token is an optional sign followed by
digits only, within `int` range. -/
def parseIntTok (s : String) : Option Int :=
  if s.data.head? = some '-' then
    match decDigits? s.data.tail with
    | some n => intResult (-(n : Int))
    | none => none
  else if s.data.head? = some '+' then
    match decDigits? s.data.tail with
    | some n => intResult (n : Int)
    | none => none
  else
    match decDigits? s.data with
    | some n => intResult (n : Int)
    | none => none

/-- The no-dash arm of `parseRange`: a single value `a` is the degenerate
range `(a, a)`. -/
def parseRangeSingle (text : String) : Option (Int × Int) :=
  match parseIntTok text with
  | some v => some (v, v)
  | none => none

/-- The dash arm of `parseRange`: parse both halves and swap a descending
pair, so the result is always `(low, high)`. -/
def parseRangePair (first second : List Char) : Option (Int × Int) :=
  match parseIntTok (trimCopy (String.mk first)),
        parseIntTok (trimCopy (String.mk second)) with
  | some a, some b => if b < a then some (b, a) else some (a, b)
  | _, _ => none

/-- The `parseRange` lambda: trim, split at the first `-` when present,
and dispatch to the single-value or pair arm. -/
def parseRange (text : String) : Option (Int × Int) :=
  match breakAt '-' (trimCopy text).data with
  | none => parseRangeSingle (trimCopy text)
  | some pr => parseRangePair pr.1 pr.2

/-! Property parsing shared (with identical lambdas) by
`TileGrid::loadFromFile` and `LevelSerialization::loadLevel`. -/

/-- The `parseCarDirection` lambda. -/
def parseCarDirection (value : String) : Option CarDirection :=
  let lower := toLowerCopy (trimCopy value)
  if lower = "" ∨ lower = "none" ∨ lower = "off" then some .none
  else if lower = "north" then some .north
  else if lower = "south" then some .south
  else if lower = "east" then some .east
  else if lower = "west" then some .west
  else if lower = "northsouth" ∨ lower = "north_south" ∨ lower = "ns" then some .northSouth
  else if lower = "eastwest" ∨ lower = "east_west" ∨ lower = "ew" then some .eastWest
  else none

/-- The `wallKeyToIndex` lambda: lower-case, strip `_`/`-`, strip a
leading `wall`, then match the four direction names. -/
def wallKeyToIndex (key : String) : Option WallDirection :=
  let k0 := (toLowerCopy (trimCopy key)).data.filter fun c => ¬ (c = '_' ∨ c = '-')
  let k1 := if List.isPrefixOf ['w', 'a', 'l', 'l'] k0 then k0.drop 4 else k0
  let ks := String.mk k1
  if ks = "n" ∨ ks = "north" then some .north
  else if ks = "s" ∨ ks = "south" then some .south
  else if ks = "e" ∨ ks = "east" then some .east
  else if ks = "w" ∨ ks = "west" then some .west
  else none

/-- Per-wall pending state collected from one `tile`/`fill` line
(`WallConfig` in both .cpp files). -/
structure WallConfig where
  specified : Bool := false
  walkable : Bool := true
  textureId : String := ""
deriving DecidableEq, Repr

/-- Pending per-tile state collected from one `tile`/`fill` line
(`TileConfig` in both .cpp files; the wall array is spelled out). -/
structure TileConfig where
  topSpecified : Bool := false
  topSolid : Bool := false
  topTextureId : String := ""
  carSpecified : Bool := false
  carDirection : CarDirection := .none
  wallN : WallConfig := {}
  wallS : WallConfig := {}
  wallE : WallConfig := {}
  wallW : WallConfig := {}
deriving DecidableEq, Repr

/-- Wall-config slot of a direction. -/
def TileConfig.getWallConfig (c : TileConfig) : WallDirection → WallConfig
  | .north => c.wallN
  | .south => c.wallS
  | .east => c.wallE
  | .west => c.wallW

/-- Update the wall-config slot of a direction. -/
def TileConfig.setWallConfig (c : TileConfig) (dir : WallDirection) (w : WallConfig) : TileConfig :=
  match dir with
  | .north => { c with wallN := w }
  | .south => { c with wallS := w }
  | .east => { c with wallE := w }
  | .west => { c with wallW := w }

/-- The `parseWallValue` lambda: split the value at the first `:` into a
state word and a texture id; the state word selects walkable/solid. -/
def parseWallValue (value : String) (wall : WallConfig) : Option WallConfig :=
  let trimmed := trimCopy value
  let stateTex : String × String :=
    match breakAt ':' trimmed.data with
    | none => (trimmed, "")
    | some pr => (trimCopy (String.mk pr.1), trimCopy (String.mk pr.2))
  let lowerState := toLowerCopy stateTex.1
  if lowerState = "walkable" ∨ lowerState = "open" ∨ lowerState = "passable" then
    some { wall with walkable := true, textureId := stateTex.2, specified := true }
  else if lowerState = "solid" ∨ lowerState = "blocked" ∨ lowerState = "wall" ∨
      lowerState = "closed" then
    some { wall with walkable := false, textureId := stateTex.2, specified := true }
  else
    none

/-- The `parseTileProperty` lambda; `none` models `return false`
(parse error logged and the line's effect skipped). -/
def parseTileProperty (key value : String) (config : TileConfig) : Option TileConfig :=
  let lowerKey := toLowerCopy (trimCopy key)
  if lowerKey = "top" then
    let trimmed := trimCopy value
    let lowerValue := toLowerCopy trimmed
    if lowerValue = "none" ∨ lowerValue = "off" ∨ lowerValue = "false" then
      some { config with topSpecified := true, topSolid := false, topTextureId := "" }
    else if List.isPrefixOf ['s', 'o', 'l', 'i', 'd'] lowerValue.data then
      let tex : String :=
        match breakAt ':' trimmed.data with
        | some pr => if pr.2 = [] then "" else trimCopy (String.mk pr.2)
        | none => ""
      some { config with topSpecified := true, topSolid := true, topTextureId := tex }
    else
      none
  else if lowerKey = "car" ∨ lowerKey = "cardirection" ∨ lowerKey = "traffic" then
    match parseCarDirection value with
    | some d => some { config with carSpecified := true, carDirection := d }
    | none => none
  else
    match wallKeyToIndex lowerKey with
    | some dir =>
        match parseWallValue value (config.getWallConfig dir) with
        | some w => some (config.setWallConfig dir w)
        | none => none
    | none => none

/-- Fold `parseTileProperty` over the `key=value` tokens of a line.  The
C++ keeps scanning after an error but sets `parseOk = false` and then
skips the line, which is what the `ok` flag models. -/
def parseTileProps : TileConfig → Bool → List (String × String) → Option TileConfig
  | c, ok, [] => if ok then some c else none
  | c, ok, (k, v) :: rest =>
      match parseTileProperty k v c with
      | some c' => parseTileProps c' ok rest
      | none => parseTileProps c false rest

/-- The `applyTileConfig` lambda: top surface first (clearing the car
direction when a solid top is set), then the car direction, then the four
walls in N, S, E, W order.  Texture ids are resolved against the grid's
alias table; the actual texture-handle loading is render state and is
omitted. -/
def applyTileConfig (g : TileGrid) (config : TileConfig) (t : Tile) : Tile :=
  let t1 :=
    if config.topSpecified then
      if config.topSolid then
        t.setTopSurface true (g.resolveTexturePath config.topTextureId) .none
      else
        t.setTopSurface false "" .none
    else t
  let t2 := if config.carSpecified then t1.setCarDirection config.carDirection else t1
  let applyW : Tile → WallDirection → WallConfig → Tile := fun tile dir w =>
    if w.specified then
      tile.setWall dir w.walkable
        (if w.textureId = "" then "" else g.resolveTexturePath w.textureId)
    else tile
  applyW (applyW (applyW (applyW t2 .north config.wallN) .south config.wallS)
    .east config.wallE) .west config.wallW

/-! The level file, modelled at the directive level: one `Line` per
non-comment command, carrying the tokens the writer emits.  `tile`/`fill`
property tokens stay raw `key`/`value` strings; numeric fields of
`grid`/`tile_size`/`vehicle` lines carry the parsed numeric value (decimal
formatting of floats is abstracted, see the module header). -/

/-- One `key=value` token of a `vehicle` line. -/
inductive VehicleProp where
  | rotation (value : ℚ)
  | texture (id : String)
  | size (w l : ℚ)
deriving DecidableEq, Repr

/-- One parsed line of a level file. -/
inductive Line where
  | grid (w h d : Int)
  | tileSize (value : ℚ)
  | texture (aliasName path : String)
  | tile (x y z : Int) (props : List (String × String))
  | fill (props : List (String × String))
  | vehicle (x y z : Int) (props : List VehicleProp)
deriving DecidableEq, Repr

/-- State collected by the first pass over the file. -/
structure Pass1State where
  aliasMap : AliasMap
  parsedGrid : IVec3
  parsedTileSize : ℚ
  gridSpecified : Bool
  tileSizeSpecified : Bool
deriving DecidableEq, Repr

/-- Accumulated state of one `fill` line's token scan. -/
structure FillState where
  xr : Int × Int := (0, 0)
  yr : Int × Int := (0, 0)
  zr : Int × Int := (0, 0)
  hasX : Bool := false
  hasY : Bool := false
  hasZ : Bool := false
  properties : List (String × String) := []
deriving DecidableEq, Repr

/-- One token of a `fill` line: `x=`/`y=`/`z=` are ranges (a failed range
parse is logged and leaves the `has` flag unset), everything else is
queued as a tile property. -/
def fillStep (st : FillState) (kv : String × String) : FillState :=
  let lowerKey := toLowerCopy (trimCopy kv.1)
  if lowerKey = "x" then
    match parseRange kv.2 with
    | some r => { st with xr := r, hasX := true }
    | none => st
  else if lowerKey = "y" then
    match parseRange kv.2 with
    | some r => { st with yr := r, hasY := true }
    | none => st
  else if lowerKey = "z" then
    match parseRange kv.2 with
    | some r => { st with zr := r, hasZ := true }
    | none => st
  else
    { st with properties := st.properties ++ [kv] }

/-- Inclusive integer range `[a, b]` as a list. -/
def intRangeList (a b : Int) : List Int :=
  (List.range (b + 1 - a).toNat).map fun i => a + i

/-- The triple `for z / for y / for x` loop order of the `fill` handler. -/
def cellsOfRanges (xr yr zr : Int × Int) : List IVec3 :=
  (intRangeList zr.1 zr.2).flatMap fun z =>
    (intRangeList yr.1 yr.2).flatMap fun y =>
      (intRangeList xr.1 xr.2).map fun x => ⟨x, y, z⟩

/-- Apply one `fill` target cell: out-of-bounds targets are logged and
skipped, in-bounds cells get the parsed config. -/
def applyFillCell (config : TileConfig) (g : TileGrid) (p : IVec3) : TileGrid :=
  if ¬ g.isValidPositionV p then g
  else
    match g.getTile p with
    | none => g
    | some t => g.setTile p (applyTileConfig g config t)

namespace LevelSerialization

/-- Pass 1 of `LevelSerialization::loadLevel`: `grid`, `tile_size` (must
parse and be > 0) and `texture` (both tokens non-empty) directives. -/
def pass1Step (st : Pass1State) : Line → Pass1State
  | .grid w h d => { st with parsedGrid := ⟨w, h, d⟩, gridSpecified := true }
  | .tileSize v =>
      if v ≤ 0 then st
      else { st with parsedTileSize := v, tileSizeSpecified := true }
  | .texture a p =>
      if a ≠ "" ∧ p ≠ "" then { st with aliasMap := mapInsert st.aliasMap a p } else st
  | _ => st

/-- Replace the first spawn definition with the same grid position, else
append (upsert into `data.vehicleSpawns`). -/
def upsertSpawnDef : List VehicleSpawnDefinition → VehicleSpawnDefinition →
    List VehicleSpawnDefinition
  | [], n => [n]
  | s :: rest, n =>
      if s.gridPosition = n.gridPosition then n :: rest else s :: upsertSpawnDef rest n

/-- The `vehicle` token scan of `LevelSerialization::loadLevel`: rotation
and size overwrite the pending definition (a non-positive size is a
per-line error), a texture id is resolved immediately. -/
def parseVehicleProps (g : TileGrid) :
    VehicleSpawnDefinition → Bool → List VehicleProp → Option VehicleSpawnDefinition
  | s, ok, [] => if ok then some s else none
  | s, ok, p :: rest =>
      match p with
      | .rotation v => parseVehicleProps g { s with rotationDegrees := v } ok rest
      | .texture id =>
          parseVehicleProps g { s with texturePath := g.resolveTexturePath (trimCopy id) } ok rest
      | .size w l =>
          if w ≤ 0 ∨ l ≤ 0 then parseVehicleProps g s false rest
          else parseVehicleProps g { s with size := (w, l) } ok rest

/-- Pass 2 of `LevelSerialization::loadLevel`, one line.  A `vehicle` line
is dropped with an error unless its position is in bounds and the tile at
that position has a solid top surface. -/
def processLine (g : TileGrid) (data : LevelData) : Line → TileGrid × LevelData
  | .tile x y z props =>
      (match parseTileProps {} true props with
       | none => (g, data)
       | some config =>
           if ¬ g.isValidPosition x y z then (g, data)
           else
             match g.getTile ⟨x, y, z⟩ with
             | none => (g, data)
             | some t => (g.setTile ⟨x, y, z⟩ (applyTileConfig g config t), data))
  | .fill props =>
      (let st := props.foldl fillStep {}
       if ¬ (st.hasX ∧ st.hasY ∧ st.hasZ) then (g, data)
       else
         match parseTileProps {} true st.properties with
         | none => (g, data)
         | some config => ((cellsOfRanges st.xr st.yr st.zr).foldl (applyFillCell config) g, data))
  | .vehicle x y z props =>
      (match parseVehicleProps g
          { gridPosition := ⟨x, y, z⟩, rotationDegrees := 0, texturePath := "",
            size := (3 / 2, 3) } true props with
       | none => (g, data)
       | some spawn =>
           if ¬ g.isValidPositionV spawn.gridPosition then (g, data)
           else
             match g.getTile spawn.gridPosition with
             | none => (g, data)
             | some supportTile =>
                 if ¬ supportTile.isTopSolid then (g, data)
                 else (g, ⟨upsertSpawnDef data.vehicleSpawns spawn⟩))
  | _ => (g, data)

/-- The state collected by pass 1 of `LevelSerialization::loadLevel`. -/
def pass1Result (lines : List Line) (g : TileGrid) : Pass1State :=
  lines.foldl pass1Step ⟨g.textureAliases, g.gridSize, g.tileSize, false, false⟩

/-- The grid after pass 1 has overwritten the alias table and (when
specified) the tile size and grid size; the tile array is still the old
one. -/
def pass1Grid (lines : List Line) (g : TileGrid) : TileGrid :=
  { g with
      textureAliases := (pass1Result lines g).aliasMap
      tileSize :=
        if (pass1Result lines g).tileSizeSpecified then (pass1Result lines g).parsedTileSize
        else g.tileSize
      gridSize :=
        if (pass1Result lines g).gridSpecified then (pass1Result lines g).parsedGrid
        else g.gridSize }

/-- `LevelSerialization::loadLevel` on an already-read file: the spawn
list is cleared up front, pass 1 collects `grid`/`tile_size`/`texture`,
the grid is re-sized/rebuilt once (failure returns `false` with the sizes
and aliases already overwritten and the old tile array kept), and pass 2
applies `tile`/`fill`/`vehicle` lines in file order. -/
def loadLevel (lines : List Line) (g : TileGrid) (data : LevelData) :
    Bool × TileGrid × LevelData :=
  let _unused := data
  match (pass1Grid lines g).rebuildTiles with
  | none => (false, pass1Grid lines g, ⟨[]⟩)
  | some g2 =>
      let res := lines.foldl (fun (acc : TileGrid × LevelData) l => processLine acc.1 acc.2 l)
        (g2, ⟨[]⟩)
      (true, res.1, res.2)

/-- `LevelSerialization::loadLevel` including the file open: `none` models
a file that cannot be opened, which returns `false` before touching any
state. -/
def loadLevelFile (contents : Option (List Line)) (g : TileGrid) (data : LevelData) :
    Bool × TileGrid × LevelData :=
  match contents with
  | none => (false, g, data)
  | some lines => loadLevel lines g data

end LevelSerialization

/-- Pending vehicle state of one `vehicle` line in
`TileGrid::loadFromFile` (`VehicleConfig` in TileGrid.cpp). -/
structure VehicleConfig where
  rotationSpecified : Bool := false
  rotation : ℚ := 0
  textureSpecified : Bool := false
  textureId : String := ""
  sizeSpecified : Bool := false
  size : ℚ × ℚ := (3 / 2, 3)
deriving DecidableEq, Repr

namespace TileGrid

/-- The `vehicle` token scan of `TileGrid::loadFromFile`: unlike the
`LevelSerialization` variant it stores the texture id unresolved. -/
def parseVehicleConfig : VehicleConfig → Bool → List VehicleProp → Option VehicleConfig
  | c, ok, [] => if ok then some c else none
  | c, ok, p :: rest =>
      match p with
      | .rotation v =>
          parseVehicleConfig { c with rotation := v, rotationSpecified := true } ok rest
      | .texture id =>
          parseVehicleConfig { c with textureId := trimCopy id, textureSpecified := true } ok rest
      | .size w l =>
          if w ≤ 0 ∨ l ≤ 0 then parseVehicleConfig c false rest
          else parseVehicleConfig { c with size := (w, l), sizeSpecified := true } ok rest

/-- Pass 1 of `TileGrid::loadFromFile` (the `texture` branch assigns the
alias unconditionally; the stream extraction guarantees non-empty
tokens). -/
def pass1Step (st : Pass1State) : Line → Pass1State
  | .grid w h d => { st with parsedGrid := ⟨w, h, d⟩, gridSpecified := true }
  | .tileSize v =>
      if v ≤ 0 then st
      else { st with parsedTileSize := v, tileSizeSpecified := true }
  | .texture a p => { st with aliasMap := mapInsert st.aliasMap a p }
  | _ => st

/-- Pass 2 of `TileGrid::loadFromFile`, one line.  The `vehicle` branch
checks bounds but, unlike `LevelSerialization::loadLevel`, performs no
solid-top check: it builds the spawn (empty texture id defaulting to
`car`, then alias-resolved) and hands it to `addOrUpdateVehicleSpawn`. -/
def processLineTG (g : TileGrid) : Line → TileGrid
  | .tile x y z props =>
      (match parseTileProps {} true props with
       | none => g
       | some config =>
           if ¬ g.isValidPosition x y z then g
           else
             match g.getTile ⟨x, y, z⟩ with
             | none => g
             | some t => g.setTile ⟨x, y, z⟩ (applyTileConfig g config t))
  | .fill props =>
      (let st := props.foldl fillStep {}
       if ¬ (st.hasX ∧ st.hasY ∧ st.hasZ) then g
       else
         match parseTileProps {} true st.properties with
         | none => g
         | some config => (cellsOfRanges st.xr st.yr st.zr).foldl (applyFillCell config) g)
  | .vehicle x y z props =>
      (match parseVehicleConfig {} true props with
       | none => g
       | some config =>
           if ¬ g.isValidPosition x y z then g
           else
             let identifier := if config.textureId = "" then "car" else config.textureId
             g.addOrUpdateVehicleSpawn
               { gridPosition := ⟨x, y, z⟩
                 rotationDegrees := config.rotation
                 texturePath := g.resolveTexturePath identifier
                 size := config.size })
  | _ => g

/-- `TileGrid::loadFromFile` on an already-read file. -/
def loadFromFileLines (lines : List Line) (g : TileGrid) : Bool × TileGrid :=
  let st := lines.foldl pass1Step ⟨g.textureAliases, g.gridSize, g.tileSize, false, false⟩
  let g1 := { g with
      textureAliases := st.aliasMap
      tileSize := if st.tileSizeSpecified then st.parsedTileSize else g.tileSize
      gridSize := if st.gridSpecified then st.parsedGrid else g.gridSize }
  match g1.rebuildTiles with
  | none => (false, g1)
  | some g2 => (true, lines.foldl processLineTG g2)

end TileGrid

/-! The writer (`LevelSerialization::saveLevel`; `TileGrid::saveToFile`
has the same body against the grid's own spawn list). -/

/-- Insertion step of the `std::sort` on alias entries (ascending by
alias name; alias names are unique, so any comparison sort agrees). -/
def insertAliasSorted (e : String × String) : List (String × String) → List (String × String)
  | [] => [e]
  | f :: rest => if e.1 < f.1 then e :: f :: rest else f :: insertAliasSorted e rest

/-- Sort alias entries by alias name. -/
def sortAliases (l : List (String × String)) : List (String × String) :=
  l.foldr insertAliasSorted []

/-- `%.2f` formatting followed by re-parsing, i.e. rounding to two
decimal places (the model of `formatFloat`; see the module header for the
float-formatting abstraction). -/
def round2 (q : ℚ) : ℚ :=
  (⌊q * 100 + 1 / 2⌋ : ℚ) / 100

/-- The `carDirectionToString` lambda. -/
def carDirectionToString : CarDirection → String
  | .north => "north"
  | .south => "south"
  | .east => "east"
  | .west => "west"
  | .northSouth => "north_south"
  | .eastWest => "east_west"
  | .none => "none"

/-- The `wallKey` lambda. -/
def wallKeyName : WallDirection → String
  | .north => "north"
  | .south => "south"
  | .east => "east"
  | .west => "west"

namespace LevelSerialization

/-- The writer's sorted list of non-empty alias entries. -/
def aliasEntries (g : TileGrid) : List (String × String) :=
  sortAliases (g.textureAliases.filter fun e => decide (e.1 ≠ "") && decide (e.2 ≠ ""))

/-- The writer's reverse map from resolved path to alias name (built from
the sorted entries; on duplicate paths the later entry wins). -/
def pathToAliasMap (entries : List (String × String)) : AliasMap :=
  entries.foldl (fun m e => mapInsert m e.2 e.1) []

/-- The `identifierForSave` lambda: keep a value that is itself an alias
name, else substitute the alias name of the path, else the raw value. -/
def identifierForSave (g : TileGrid) (p2a : AliasMap) (value : String) : String :=
  if value = "" then ""
  else
    match mapFind g.textureAliases value with
    | some _ => value
    | none =>
        match mapFind p2a value with
        | some a => a
        | none => value

/-- The `vehicle` line tokens the writer emits for one spawn. -/
def vehicleLineProps (g : TileGrid) (p2a : AliasMap) (s : VehicleSpawnDefinition) :
    List VehicleProp :=
  [.rotation (round2 s.rotationDegrees)]
    ++ (if s.texturePath = "" then []
        else [.texture (identifierForSave g p2a s.texturePath)])
    ++ [.size (round2 s.size.1) (round2 s.size.2)]

/-- The `tile` line tokens the writer emits for one tile (empty when the
tile is all default, in which case no line is written). -/
def tilePropsForSave (g : TileGrid) (p2a : AliasMap) (t : Tile) : List (String × String) :=
  (if t.topSurface.solid then
     [("top",
       (let topId := identifierForSave g p2a t.topSurface.texturePath
        if topId = "" then "solid" else "solid:" ++ topId))]
   else [])
  ++ (if t.topSurface.carDirection ≠ .none then
        [("car", carDirectionToString t.topSurface.carDirection)]
      else [])
  ++ ([WallDirection.north, .south, .east, .west].filterMap fun dir =>
        let wall := t.getWall dir
        if wall.walkable ∧ wall.texturePath = "" then none
        else
          let base := if wall.walkable then "walkable" else "solid"
          let wid := identifierForSave g p2a wall.texturePath
          some (wallKeyName dir, if wid = "" then base else base ++ ":" ++ wid))

/-- The writer's cell enumeration: `for z / for y / for x` is exactly
flat-index order. -/
def cellPositions (g : TileGrid) : List IVec3 :=
  (List.range (g.gridSize.x.toNat * g.gridSize.y.toNat * g.gridSize.z.toNat)).map fun i =>
    ⟨((i % g.gridSize.x.toNat : Nat) : Int),
     ((i / g.gridSize.x.toNat % g.gridSize.y.toNat : Nat) : Int),
     ((i / (g.gridSize.x.toNat * g.gridSize.y.toNat) : Nat) : Int)⟩

/-- `LevelSerialization::saveLevel`: `grid`, `tile_size`, sorted `texture`
aliases, all vehicle spawns (rotation and size rounded to two decimals),
then one `tile` line per cell with any non-default state.  The leading
`#` comment the writer emits is skipped by every parser and is omitted. -/
def saveLevel (g : TileGrid) (data : LevelData) : List Line :=
  let entries := aliasEntries g
  let p2a := pathToAliasMap entries
  [Line.grid g.gridSize.x g.gridSize.y g.gridSize.z, Line.tileSize g.tileSize]
    ++ entries.map (fun e => Line.texture e.1 e.2)
    ++ data.vehicleSpawns.map (fun s =>
        Line.vehicle s.gridPosition.x s.gridPosition.y s.gridPosition.z
          (vehicleLineProps g p2a s))
    ++ (cellPositions g).filterMap (fun p =>
        match g.getTile p with
        | none => none
        | some t =>
            let props := tilePropsForSave g p2a t
            if props = [] then none else some (Line.tile p.x p.y p.z props))

end LevelSerialization

/-- Modelled from the spec: `TileGrid::resize` is called by
`TileGridEditor::drawGridControls` (src/src/TileGridEditor.cpp) but its
definition is not among the provided sources.  Per spec §4.1 it fails
(returns false, grid unchanged) if any dimension is ≤ 0; on success it
allocates a fresh default tile array at the new size and copies tile
content (walls + top surface, the copy performed by `Tile::copyFrom` from
src/src/Tile.cpp) from the overlapping sub-region of the old grid into
the corresponding positions; cells outside the overlap keep default
state.  Per spec §4.4 the spawn registry is not cleared by a resize. -/
def TileGrid.resize (g : TileGrid) (newSize : IVec3) : Bool × TileGrid :=
  if newSize.x ≤ 0 ∨ newSize.y ≤ 0 ∨ newSize.z ≤ 0 then
    (false, g)
  else
    (true,
     { g with
        gridSize := newSize
        tiles := buildTiles newSize.x.toNat newSize.y.toNat newSize.z.toNat fun x y z =>
          match g.getTile ⟨(x : Int), (y : Int), (z : Int)⟩ with
          | some old => (defaultTile ⟨(x : Int), (y : Int), (z : Int)⟩).copyFrom old
          | none => defaultTile ⟨(x : Int), (y : Int), (z : Int)⟩ })

/-! Spec-side definitions: the following definitions restate claim
wording (they are the comparison side of the refinement-style claims, not
translations of the code). -/

/-- Wall lookup through `getTile` (false when the tile is missing);
used to state wall conditions of occupancy claims. -/
def TileGrid.wallWalkableAt (g : TileGrid) (p : IVec3) (dir : WallDirection) : Bool :=
  match g.getTile p with
  | some t => t.isWallWalkable dir
  | none => false

/-- Solid-top lookup through `getTile` (false when the tile is missing). -/
def TileGrid.hasSolidTopAt (g : TileGrid) (p : IVec3) : Bool :=
  match g.getTile p with
  | some t => t.isTopSolid
  | none => false

/-- Spec-side ground support, following claim C1's words: the tile at
`(x, y, z-1)` exists and has a solid top surface. -/
def groundSupportSpec (g : TileGrid) (p : IVec3) : Bool :=
  g.hasSolidTopAt ⟨p.x, p.y, p.z - 1⟩

/-- The wall-direction pair facing each other across the shared edge of
an orthogonal step `(dx, dy)`, under the direction↔axis mapping fixed in
`Tile.hpp` (North = -Y, South = +Y, East = -X, West = +X): the source's
wall on the step side, and the destination's wall on the opposite side. -/
def facingDirs (dx dy : Int) : Option (WallDirection × WallDirection) :=
  if dx = 1 ∧ dy = 0 then some (.west, .east)
  else if dx = -1 ∧ dy = 0 then some (.east, .west)
  else if dx = 0 ∧ dy = 1 then some (.south, .north)
  else if dx = 0 ∧ dy = -1 then some (.north, .south)
  else none

/-- Spec-side restatement of claim C1 on grid cells: both cells in
bounds, and either the cells are equal with ground support, or they
differ by a purely horizontal unit step whose two facing boundary walls
are both walkable and whose destination has ground support. -/
def canOccupySpecCells (g : TileGrid) (a b : IVec3) : Bool :=
  g.isValidPositionV a && g.isValidPositionV b &&
    (if a = b then
       groundSupportSpec g a
     else
       decide (b.z - a.z = 0) &&
         decide ((b.x - a.x).natAbs + (b.y - a.y).natAbs = 1) &&
         (match facingDirs (b.x - a.x) (b.y - a.y) with
          | some fromTo =>
              g.wallWalkableAt a fromTo.1 && g.wallWalkableAt b fromTo.2
          | none => false) &&
         groundSupportSpec g b)

/-- Spec-side restatement of claim C1: the positions are converted via
`worldToGrid` and the cell-level condition applies. -/
def canOccupySpec (g : TileGrid) (fromPos toPos : Vec3) : Bool :=
  canOccupySpecCells g (g.worldToGrid fromPos) (g.worldToGrid toPos)

/-- The spawns stored at one grid position. -/
def TileGrid.spawnsAt (g : TileGrid) (p : IVec3) : List VehicleSpawn :=
  g.vehicleSpawns.filter fun s => decide (s.gridPosition = p)

/-! Concrete fixtures used by witnesses and counterexamples. -/

/-- A 1x1x1 grid whose single cell has a solid top surface. -/
def exGrid1 : TileGrid :=
  { gridSize := ⟨1, 1, 1⟩
    tileSize := 3
    tiles := buildTiles 1 1 1 fun x y z =>
      (defaultTile ⟨(x : Int), (y : Int), (z : Int)⟩).setTopSurface true "" .none
    textureAliases := []
    vehicleSpawns := [] }

/-- A level-data value holding one spawn on the (solid) cell of
`exGrid1`. -/
def exData1 : LevelData :=
  ⟨[{ gridPosition := ⟨0, 0, 0⟩, rotationDegrees := 90, texturePath := "", size := (3 / 2, 3) }]⟩

/-- A 1x1x1 grid whose single cell is all default (top not solid). -/
def exGridDefault : TileGrid :=
  { gridSize := ⟨1, 1, 1⟩
    tileSize := 3
    tiles := buildTiles 1 1 1 fun x y z => defaultTile ⟨(x : Int), (y : Int), (z : Int)⟩
    textureAliases := []
    vehicleSpawns := [] }

/-- A 1x2x2 grid: the whole ground layer has solid tops, and the tile at
`(0,0,1)` has a non-walkable North (-Y) wall; every other wall is open. -/
def exGridC2 : TileGrid :=
  { gridSize := ⟨1, 2, 2⟩
    tileSize := 3
    tiles := buildTiles 1 2 2 fun x y z =>
      if z = 0 then
        (defaultTile ⟨(x : Int), (y : Int), (z : Int)⟩).setTopSurface true "" .none
      else if y = 0 then
        (defaultTile ⟨(x : Int), (y : Int), (z : Int)⟩).setWall .north false ""
      else
        defaultTile ⟨(x : Int), (y : Int), (z : Int)⟩
    textureAliases := []
    vehicleSpawns := [] }

/-- A 4x4x2 grid with a solid top surface painted at `(1,1,0)` (the
resize example of spec section 8). -/
def exGrid44 : TileGrid :=
  { gridSize := ⟨4, 4, 2⟩
    tileSize := 3
    tiles := buildTiles 4 4 2 fun x y z =>
      if x = 1 ∧ y = 1 ∧ z = 0 then
        (defaultTile ⟨(x : Int), (y : Int), (z : Int)⟩).setTopSurface true "" .none
      else
        defaultTile ⟨(x : Int), (y : Int), (z : Int)⟩
    textureAliases := []
    vehicleSpawns := [] }

/-! Helper lemmas about the flat tile index and the dense tile array. -/

theorem add_mul_lt_mul {a z m d : Nat} (ha : a < m) (hz : z < d) :
    a + z * m < m * d := by
  calc a + z * m + 1 = (a + 1) + z * m := by ring
    _ ≤ m + z * m := Nat.add_le_add_right ha _
    _ = (z + 1) * m := by ring
    _ ≤ d * m := Nat.mul_le_mul_right m hz
    _ = m * d := Nat.mul_comm d m

theorem base_lt_mul {x y w h : Nat} (hx : x < w) (hy : y < h) :
    x + y * w < w * h :=
  add_mul_lt_mul hx hy

theorem encodeIdx_lt {w h d x y z : Nat} (hx : x < w) (hy : y < h) (hz : z < d) :
    encodeIdx w h x y z < w * h * d := by
  unfold encodeIdx
  have h0 : x + y * w + z * w * h = (x + y * w) + z * (w * h) := by ring
  rw [h0]
  exact add_mul_lt_mul (base_lt_mul hx hy) hz

theorem encodeIdx_mod {w h : Nat} (x y z : Nat) (hx : x < w) :
    encodeIdx w h x y z % w = x := by
  unfold encodeIdx
  have : x + y * w + z * w * h = x + (y + z * h) * w := by ring
  rw [this, Nat.add_mul_mod_self_right, Nat.mod_eq_of_lt hx]

theorem encodeIdx_div_mod {w h : Nat} (x y z : Nat) (hx : x < w) (hy : y < h) :
    encodeIdx w h x y z / w % h = y := by
  have hw : 0 < w := Nat.lt_of_le_of_lt (Nat.zero_le x) hx
  unfold encodeIdx
  have h0 : x + y * w + z * w * h = x + (y + z * h) * w := by ring
  rw [h0, Nat.add_mul_div_right _ _ hw, Nat.div_eq_of_lt hx, Nat.zero_add,
    Nat.add_mul_mod_self_right, Nat.mod_eq_of_lt hy]

theorem encodeIdx_div_div {w h : Nat} (x y z : Nat) (hx : x < w) (hy : y < h) :
    encodeIdx w h x y z / (w * h) = z := by
  have hw : 0 < w := Nat.lt_of_le_of_lt (Nat.zero_le x) hx
  have hh : 0 < h := Nat.lt_of_le_of_lt (Nat.zero_le y) hy
  have hwh : 0 < w * h := Nat.mul_pos hw hh
  unfold encodeIdx
  have h0 : x + y * w + z * w * h = (x + y * w) + z * (w * h) := by ring
  have hlt : x + y * w < w * h := base_lt_mul hx hy
  rw [h0, Nat.add_mul_div_right _ _ hwh, Nat.div_eq_of_lt hlt, Nat.zero_add]

theorem encodeIdx_inj {w h : Nat} {x1 y1 z1 x2 y2 z2 : Nat}
    (hx1 : x1 < w) (hy1 : y1 < h) (hx2 : x2 < w) (hy2 : y2 < h)
    (heq : encodeIdx w h x1 y1 z1 = encodeIdx w h x2 y2 z2) :
    x1 = x2 ∧ y1 = y2 ∧ z1 = z2 := by
  refine ⟨?_, ?_, ?_⟩
  · rw [← encodeIdx_mod x1 y1 z1 hx1, heq, encodeIdx_mod x2 y2 z2 hx2]
  · rw [← encodeIdx_div_mod x1 y1 z1 hx1 hy1, heq, encodeIdx_div_mod x2 y2 z2 hx2 hy2]
  · rw [← encodeIdx_div_div x1 y1 z1 hx1 hy1, heq, encodeIdx_div_div x2 y2 z2 hx2 hy2]

theorem buildTiles_length (w h d : Nat) (f : Nat → Nat → Nat → Tile) :
    (buildTiles w h d f).length = w * h * d := by
  simp [buildTiles]

theorem buildTiles_getElem {w h d x y z : Nat} (f : Nat → Nat → Nat → Tile)
    (hx : x < w) (hy : y < h) (hz : z < d) :
    (buildTiles w h d f)[encodeIdx w h x y z]? = some (f x y z) := by
  have hlt := encodeIdx_lt hx hy hz
  simp [buildTiles, List.getElem?_range hlt, encodeIdx_mod x y z hx,
    encodeIdx_div_mod x y z hx hy, encodeIdx_div_div x y z hx hy]

namespace TileGrid

/-- Unfolded form of the bounds check. -/
theorem isValidPosition_iff (g : TileGrid) (x y z : Int) :
    g.isValidPosition x y z = true ↔
      0 ≤ x ∧ x < g.gridSize.x ∧ 0 ≤ y ∧ y < g.gridSize.y ∧ 0 ≤ z ∧ z < g.gridSize.z := by
  simp [isValidPosition, and_assoc]

/-- The flat index of a valid position, as the `Nat` encoding of the
position's components. -/
theorem getIndex_toNat (g : TileGrid) {x y z : Int}
    (h : g.isValidPosition x y z = true) :
    (g.getIndex x y z).toNat =
      encodeIdx g.gridSize.x.toNat g.gridSize.y.toNat x.toNat y.toNat z.toNat := by
  obtain ⟨hx0, hxW, hy0, hyH, hz0, hzD⟩ := (g.isValidPosition_iff x y z).mp h
  have hW0 : 0 ≤ g.gridSize.x := le_of_lt (lt_of_le_of_lt hx0 hxW)
  have hH0 : 0 ≤ g.gridSize.y := le_of_lt (lt_of_le_of_lt hy0 hyH)
  have hcast : g.getIndex x y z =
      ((encodeIdx g.gridSize.x.toNat g.gridSize.y.toNat x.toNat y.toNat z.toNat : Nat) : Int) := by
    unfold getIndex encodeIdx
    push_cast [Int.toNat_of_nonneg hx0, Int.toNat_of_nonneg hy0, Int.toNat_of_nonneg hz0,
      Int.toNat_of_nonneg hW0, Int.toNat_of_nonneg hH0]
    ring
  rw [hcast, Int.toNat_natCast]

/-- Component bounds of a valid position, on the `Nat` side. -/
theorem valid_toNat_bounds (g : TileGrid) {x y z : Int}
    (h : g.isValidPosition x y z = true) :
    x.toNat < g.gridSize.x.toNat ∧ y.toNat < g.gridSize.y.toNat ∧
      z.toNat < g.gridSize.z.toNat := by
  obtain ⟨hx0, hxW, hy0, hyH, hz0, hzD⟩ := (g.isValidPosition_iff x y z).mp h
  exact ⟨(Int.toNat_lt_toNat (lt_of_le_of_lt hx0 hxW)).mpr hxW,
    (Int.toNat_lt_toNat (lt_of_le_of_lt hy0 hyH)).mpr hyH,
    (Int.toNat_lt_toNat (lt_of_le_of_lt hz0 hzD)).mpr hzD⟩

/-- `getTile` on a grid whose tile array is a `buildTiles` image. -/
theorem getTile_buildTiles {g : TileGrid} {f : Nat → Nat → Nat → Tile}
    (ht : g.tiles = buildTiles g.gridSize.x.toNat g.gridSize.y.toNat g.gridSize.z.toNat f)
    {p : IVec3} (hv : g.isValidPositionV p = true) :
    g.getTile p = some (f p.x.toNat p.y.toNat p.z.toNat) := by
  have hv' : g.isValidPosition p.x p.y p.z = true := hv
  obtain ⟨hx, hy, hz⟩ := g.valid_toNat_bounds (x := p.x) (y := p.y) (z := p.z) hv'
  unfold getTile
  rw [if_pos hv', ht, g.getIndex_toNat hv', buildTiles_getElem f hx hy hz]

/-- A grid whose tile array is a `buildTiles` image is well-formed. -/
theorem WF_of_buildTiles {g : TileGrid} {f : Nat → Nat → Nat → Tile}
    (ht : g.tiles = buildTiles g.gridSize.x.toNat g.gridSize.y.toNat g.gridSize.z.toNat f) :
    g.WF := by
  unfold WF
  rw [ht, buildTiles_length]

/-- On a well-formed grid, `getTile` yields a tile at every valid
position. -/
theorem getTile_isSome_of_valid {g : TileGrid} (hWF : g.WF) {p : IVec3}
    (hv : g.isValidPositionV p = true) : ∃ t, g.getTile p = some t := by
  have hv' : g.isValidPosition p.x p.y p.z = true := hv
  obtain ⟨hx, hy, hz⟩ := g.valid_toNat_bounds (x := p.x) (y := p.y) (z := p.z) hv'
  have hidx : (g.getIndex p.x p.y p.z).toNat < g.tiles.length := by
    rw [hWF, g.getIndex_toNat hv']
    exact encodeIdx_lt hx hy hz
  refine ⟨g.tiles[(g.getIndex p.x p.y p.z).toNat], ?_⟩
  unfold getTile
  rw [if_pos hv', List.getElem?_eq_getElem hidx]

end TileGrid

/-! Claim theorems. -/

/-- Helper: the coordinate round-trip, shared by several claims. -/
theorem worldToGrid_gridToWorld (g : TileGrid) (h : 0 < g.tileSize) (p : IVec3) :
    g.worldToGrid (g.gridToWorld p) = p := by
  have hne : g.tileSize ≠ 0 := ne_of_gt h
  unfold TileGrid.worldToGrid TileGrid.gridToWorld
  have hx : ((p.x : ℚ) * g.tileSize + g.tileSize / 2) / g.tileSize = (p.x : ℚ) + 1 / 2 := by
    field_simp
    ring
  have hy : ((p.y : ℚ) * g.tileSize + g.tileSize / 2) / g.tileSize = (p.y : ℚ) + 1 / 2 := by
    field_simp
    ring
  have hz : (((p.z : ℚ) - 1) * g.tileSize + g.tileSize) / g.tileSize = (p.z : ℚ) := by
    field_simp
    ring
  have hfx : ⌊(p.x : ℚ) + 1 / 2⌋ = p.x := by
    rw [Int.floor_eq_iff]
    constructor
    · linarith
    · norm_num
  have hfy : ⌊(p.y : ℚ) + 1 / 2⌋ = p.y := by
    rw [Int.floor_eq_iff]
    constructor
    · linarith
    · norm_num
  simp only [hx, hy, hz, hfx, hfy, Int.floor_intCast]

/-- C7: for every integer grid position `p` and every `tileSize > 0`,
`worldToGrid (gridToWorld p) = p`, where `gridToWorld p` is
`(p.x*tileSize, p.y*tileSize, (p.z-1)*tileSize)` and `worldToGrid` floors
`(coord + tileSize/2)/tileSize` on x and y and `(z + tileSize)/tileSize`
on z. -/
theorem claim_C7_coordinate_roundtrip (g : TileGrid) (h : 0 < g.tileSize) (p : IVec3) :
    g.worldToGrid (g.gridToWorld p) = p :=
  worldToGrid_gridToWorld g h p

/-- Witness for C7 at a concrete grid and position. -/
theorem claim_C7_coordinate_roundtrip_witness :
    (0 : ℚ) < exGrid1.tileSize ∧
      exGrid1.worldToGrid (exGrid1.gridToWorld ⟨5, -2, 7⟩) = ⟨5, -2, 7⟩ :=
  ⟨by decide, claim_C7_coordinate_roundtrip exGrid1 (by decide) ⟨5, -2, 7⟩⟩

/-- C9: on a well-formed grid, `isValidPosition x y z` holds exactly for
`0 ≤ x < W ∧ 0 ≤ y < H ∧ 0 ≤ z < D`, and `getTile` returns a live tile
exactly when `isValidPosition` is true (the flat-array access is modelled
by `List.getElem?`, so no out-of-range access can occur). -/
theorem claim_C9_bounds_invariant (g : TileGrid) (hWF : g.WF) (x y z : Int) :
    (g.isValidPosition x y z = true ↔
      0 ≤ x ∧ x < g.gridSize.x ∧ 0 ≤ y ∧ y < g.gridSize.y ∧ 0 ≤ z ∧ z < g.gridSize.z) ∧
    ((∃ t, g.getTile ⟨x, y, z⟩ = some t) ↔ g.isValidPosition x y z = true) := by
  refine ⟨g.isValidPosition_iff x y z, ?_, ?_⟩
  · rintro ⟨t, ht⟩
    by_contra hnv
    unfold TileGrid.getTile at ht
    rw [if_neg hnv] at ht
    exact Option.noConfusion ht
  · intro hv
    exact g.getTile_isSome_of_valid hWF hv

/-- Witness for C9 at a concrete grid and position. -/
theorem claim_C9_bounds_invariant_witness :
    exGrid1.WF ∧
      ((∃ t, exGrid1.getTile ⟨0, 0, 0⟩ = some t) ↔ exGrid1.isValidPosition 0 0 0 = true) :=
  ⟨by decide, (claim_C9_bounds_invariant exGrid1 (by decide) 0 0 0).2⟩

/-! Lemmas about token parsing, supporting the `fill`-range claim. -/

theorem digit_not_ws {c : Char} (h : c.isDigit = true) : c.isWhitespace = false := by
  by_contra hw
  rw [Bool.not_eq_false] at hw
  simp only [Char.isWhitespace, Bool.or_eq_true, decide_eq_true_eq] at hw
  rcases hw with ((h1 | h1) | h1) | h1 <;> subst h1 <;> exact absurd h (by decide)

theorem digit_ne_dash {c : Char} (h : c.isDigit = true) : c ≠ '-' := by
  intro he
  subst he
  exact absurd h (by decide)

theorem all_not_ws_of_digits {l : List Char} (hd : l.all Char.isDigit = true) :
    ∀ c ∈ l, c.isWhitespace = false :=
  fun c hc => digit_not_ws (List.all_eq_true.mp hd c hc)

theorem dropWhile_eq_self_of_none {p : Char → Bool} {l : List Char}
    (h : ∀ c ∈ l, p c = false) : l.dropWhile p = l := by
  cases l with
  | nil => rfl
  | cons a as => simp [List.dropWhile_cons, h a (List.mem_cons_self a as)]

theorem trimCopy_mk {l : List Char} (h : ∀ c ∈ l, c.isWhitespace = false) :
    trimCopy (String.mk l) = String.mk l := by
  unfold trimCopy
  have h1 : (String.mk l).data = l := rfl
  rw [h1, dropWhile_eq_self_of_none h,
    dropWhile_eq_self_of_none (fun c hc => h c (List.mem_reverse.mp hc)),
    List.reverse_reverse]

theorem breakAt_not_mem {c : Char} {l : List Char} (h : c ∉ l) : breakAt c l = none := by
  induction l with
  | nil => rfl
  | cons a as ih =>
      have hne : a ≠ c := fun he => h (by rw [← he]; exact List.mem_cons_self a as)
      have hm : c ∉ as := fun hm => h (List.mem_cons_of_mem a hm)
      unfold breakAt
      rw [if_neg hne, ih hm]
      rfl

theorem breakAt_append {c : Char} {l r : List Char} (h : c ∉ l) :
    breakAt c (l ++ c :: r) = some (l, r) := by
  induction l with
  | nil => simp [breakAt]
  | cons a as ih =>
      have hne : a ≠ c := fun he => h (by rw [← he]; exact List.mem_cons_self a as)
      have hm : c ∉ as := fun hm => h (List.mem_cons_of_mem a hm)
      rw [List.cons_append]
      unfold breakAt
      rw [if_neg hne, ih hm]
      rfl

theorem decDigits?_eq {l : List Char} (hne : l ≠ []) (hd : l.all Char.isDigit = true) :
    decDigits? l = some (digitsVal l) := by
  unfold decDigits?
  rw [if_pos ⟨hne, hd⟩]

theorem intResult_of_fits {v : Int} (h1 : -2147483648 ≤ v) (h2 : v ≤ 2147483647) :
    intResult v = some v := by
  unfold intResult intFits
  rw [if_pos]
  rw [Bool.and_eq_true, decide_eq_true_eq, decide_eq_true_eq]
  exact ⟨h1, h2⟩

theorem parseIntTok_digits {l : List Char} (hne : l ≠ []) (hd : l.all Char.isDigit = true)
    (hfit : (digitsVal l : Int) ≤ 2147483647) :
    parseIntTok (String.mk l) = some ((digitsVal l : Int)) := by
  obtain ⟨c, cs, rfl⟩ := List.exists_cons_of_ne_nil hne
  have hcd : c.isDigit = true := List.all_eq_true.mp hd c (List.mem_cons_self c cs)
  have hc1 : c ≠ '-' := digit_ne_dash hcd
  have hc2 : c ≠ '+' := by
    intro he
    subst he
    exact absurd hcd (by decide)
  have hdata : (String.mk (c :: cs)).data = c :: cs := rfl
  unfold parseIntTok
  rw [hdata]
  rw [List.head?_cons]
  rw [if_neg (by simp [hc1]), if_neg (by simp [hc2]), decDigits?_eq hne hd]
  show intResult ((digitsVal (c :: cs) : Int)) = _
  exact intResult_of_fits (le_trans (by norm_num) (Int.ofNat_nonneg _)) hfit

theorem parseRange_digit_pair {ds dt : List Char}
    (hds : ds ≠ []) (hdsd : ds.all Char.isDigit = true)
    (hdt : dt ≠ []) (hdtd : dt.all Char.isDigit = true)
    (hfa : (digitsVal ds : Int) ≤ 2147483647) (hfb : (digitsVal dt : Int) ≤ 2147483647) :
    parseRange (String.mk (ds ++ '-' :: dt)) =
      some (if (digitsVal dt : Int) < (digitsVal ds : Int) then
              ((digitsVal dt : Int), (digitsVal ds : Int))
            else ((digitsVal ds : Int), (digitsVal dt : Int))) := by
  have hws : ∀ c ∈ ds ++ '-' :: dt, c.isWhitespace = false := by
    intro c hc
    rcases List.mem_append.mp hc with h1 | h2
    · exact all_not_ws_of_digits hdsd c h1
    · rcases List.mem_cons.mp h2 with h3 | h4
      · subst h3; decide
      · exact all_not_ws_of_digits hdtd c h4
  have hmem : '-' ∉ ds := fun hm => digit_ne_dash (List.all_eq_true.mp hdsd _ hm) rfl
  unfold parseRange
  rw [trimCopy_mk hws]
  have hdata : (String.mk (ds ++ '-' :: dt)).data = ds ++ '-' :: dt := rfl
  rw [hdata, breakAt_append hmem]
  show parseRangePair ds dt = _
  unfold parseRangePair
  rw [trimCopy_mk (all_not_ws_of_digits hdsd), trimCopy_mk (all_not_ws_of_digits hdtd)]
  rw [parseIntTok_digits hds hdsd hfa, parseIntTok_digits hdt hdtd hfb]
  show (if (digitsVal dt : Int) < (digitsVal ds : Int) then
          some (((digitsVal dt : Int)), ((digitsVal ds : Int)))
        else some (((digitsVal ds : Int)), ((digitsVal dt : Int)))) = _
  split_ifs <;> rfl

theorem parseRange_digit_single {ds : List Char}
    (hds : ds ≠ []) (hdsd : ds.all Char.isDigit = true)
    (hfa : (digitsVal ds : Int) ≤ 2147483647) :
    parseRange (String.mk ds) = some ((digitsVal ds : Int), (digitsVal ds : Int)) := by
  have hmem : '-' ∉ ds := fun hm => digit_ne_dash (List.all_eq_true.mp hdsd _ hm) rfl
  unfold parseRange
  rw [trimCopy_mk (all_not_ws_of_digits hdsd)]
  have hdata : (String.mk ds).data = ds := rfl
  rw [hdata, breakAt_not_mem hmem]
  show parseRangeSingle (String.mk ds) = _
  unfold parseRangeSingle
  rw [parseIntTok_digits hds hdsd hfa]

theorem processLine_fill_eq (g : TileGrid) (data : LevelData)
    (props : List (String × String)) :
    LevelSerialization.processLine g data (.fill props) =
      (let st := props.foldl fillStep {}
       if ¬ (st.hasX ∧ st.hasY ∧ st.hasZ) then (g, data)
       else
         match parseTileProps {} true st.properties with
         | none => (g, data)
         | some config =>
             ((cellsOfRanges st.xr st.yr st.zr).foldl (applyFillCell config) g, data)) :=
  rfl

theorem fillStep_x (st : FillState) (v : String) :
    fillStep st ("x", v) =
      match parseRange v with
      | some r => { st with xr := r, hasX := true }
      | none => st :=
  rfl

theorem fillStep_x_congr (st : FillState) {v1 v2 : String}
    (h : parseRange v1 = parseRange v2) : fillStep st ("x", v1) = fillStep st ("x", v2) := by
  rw [fillStep_x, fillStep_x, h]

/-- C10: in a `fill` directive, a range token `a-b` of non-negative
integers whose first endpoint exceeds the second is accepted and
normalized by swapping the endpoints, so the fill processes exactly the
same line effect as the reversed token, and a single-value token `a` is
the degenerate range `a-a`.  Endpoints are given as digit strings (with
values in `int` range, as required by `std::stoi`). -/
theorem claim_C10_fill_range_swap (ds dt : List Char) (g : TileGrid) (data : LevelData)
    (rest : List (String × String))
    (hds : ds ≠ []) (hdsd : ds.all Char.isDigit = true)
    (hdt : dt ≠ []) (hdtd : dt.all Char.isDigit = true)
    (hfa : (digitsVal ds : Int) ≤ 2147483647)
    (hfb : (digitsVal dt : Int) ≤ 2147483647)
    (hgt : digitsVal dt < digitsVal ds) :
    parseRange (String.mk (ds ++ '-' :: dt)) =
        some (((digitsVal dt : Int)), ((digitsVal ds : Int))) ∧
      parseRange (String.mk (dt ++ '-' :: ds)) = parseRange (String.mk (ds ++ '-' :: dt)) ∧
      parseRange (String.mk ds) = some (((digitsVal ds : Int)), ((digitsVal ds : Int))) ∧
      LevelSerialization.processLine g data
          (.fill (("x", String.mk (ds ++ '-' :: dt)) :: rest)) =
        LevelSerialization.processLine g data
          (.fill (("x", String.mk (dt ++ '-' :: ds)) :: rest)) := by
  have hgt' : (digitsVal dt : Int) < (digitsVal ds : Int) := Int.ofNat_lt.mpr hgt
  have h1 : parseRange (String.mk (ds ++ '-' :: dt)) =
      some (((digitsVal dt : Int)), ((digitsVal ds : Int))) := by
    rw [parseRange_digit_pair hds hdsd hdt hdtd hfa hfb, if_pos hgt']
  have h2 : parseRange (String.mk (dt ++ '-' :: ds)) =
      some (((digitsVal dt : Int)), ((digitsVal ds : Int))) := by
    rw [parseRange_digit_pair hdt hdtd hds hdsd hfb hfa, if_neg (not_lt.mpr (le_of_lt hgt'))]
  refine ⟨h1, h2.trans h1.symm, parseRange_digit_single hds hdsd hfa, ?_⟩
  have hstep : fillStep {} ("x", String.mk (ds ++ '-' :: dt)) =
      fillStep {} ("x", String.mk (dt ++ '-' :: ds)) :=
    fillStep_x_congr {} (h1.trans h2.symm)
  rw [processLine_fill_eq, processLine_fill_eq]
  simp only [List.foldl_cons, hstep]

/-- Witness for C10 at the concrete tokens `5-2` and `2-5`. -/
theorem claim_C10_fill_range_swap_witness :
    digitsVal ['2'] < digitsVal ['5'] ∧
      (parseRange (String.mk (['5'] ++ '-' :: ['2'])) =
          some (((digitsVal ['2'] : Int)), ((digitsVal ['5'] : Int))) ∧
        parseRange (String.mk (['2'] ++ '-' :: ['5'])) =
          parseRange (String.mk (['5'] ++ '-' :: ['2'])) ∧
        parseRange (String.mk ['5']) = some (((digitsVal ['5'] : Int)), ((digitsVal ['5'] : Int))) ∧
        LevelSerialization.processLine exGrid1 exData1
            (.fill (("x", String.mk (['5'] ++ '-' :: ['2'])) :: [("y", "0"), ("z", "0")])) =
          LevelSerialization.processLine exGrid1 exData1
            (.fill (("x", String.mk (['2'] ++ '-' :: ['5'])) :: [("y", "0"), ("z", "0")]))) :=
  ⟨by decide,
   claim_C10_fill_range_swap ['5'] ['2'] exGrid1 exData1 [("y", "0"), ("z", "0")]
     (by decide) (by decide) (by decide) (by decide) (by decide) (by decide) (by decide)⟩

/-! Lemmas about the vehicle-spawn registry. -/

namespace TileGrid

theorem normalizeRotation_nonneg (r : ℚ) : 0 ≤ normalizeRotation r := by
  unfold normalizeRotation
  have h := Int.floor_le (r / 360)
  have h360 : (0 : ℚ) < 360 := by norm_num
  have h2 := mul_le_mul_of_nonneg_left h (le_of_lt h360)
  rw [mul_div_cancel₀ r (ne_of_gt h360)] at h2
  linarith

theorem normalizeRotation_lt (r : ℚ) : normalizeRotation r < 360 := by
  unfold normalizeRotation
  have h := Int.lt_floor_add_one (r / 360)
  have h360 : (0 : ℚ) < 360 := by norm_num
  have h2 := mul_lt_mul_of_pos_left h h360
  rw [mul_div_cancel₀ r (ne_of_gt h360)] at h2
  linarith

theorem normalizeRotation_congruent (r : ℚ) :
    ∃ k : ℤ, r - normalizeRotation r = 360 * k :=
  ⟨⌊r / 360⌋, by unfold normalizeRotation; ring⟩

theorem normalizeSpawn_pos (g : TileGrid) (s : VehicleSpawn) :
    (g.normalizeSpawn s).gridPosition = s.gridPosition := rfl

theorem addOrUpdate_eq_of_valid (g : TileGrid) (s : VehicleSpawn)
    (hv : g.isValidPositionV s.gridPosition = true) :
    g.addOrUpdateVehicleSpawn s =
      { g with vehicleSpawns := upsertSpawn g.vehicleSpawns (g.normalizeSpawn s) } := by
  unfold addOrUpdateVehicleSpawn
  rw [if_pos hv]

theorem find?_upsertSpawn (l : List VehicleSpawn) (n : VehicleSpawn) :
    (upsertSpawn l n).find?
      (fun s => decide (s.gridPosition = n.gridPosition)) = some n := by
  induction l with
  | nil =>
      simp [upsertSpawn, List.find?]
  | cons s rest ih =>
      unfold upsertSpawn
      by_cases hp : s.gridPosition = n.gridPosition
      · rw [if_pos hp]
        simp [List.find?]
      · rw [if_neg hp]
        rw [List.find?_cons_of_neg _ (by simp [hp])]
        exact ih

theorem filter_length_upsertSpawn (l : List VehicleSpawn) (n : VehicleSpawn)
    (h : (l.filter fun s => decide (s.gridPosition = n.gridPosition)).length ≤ 1) :
    ((upsertSpawn l n).filter
      (fun s => decide (s.gridPosition = n.gridPosition))).length = 1 := by
  induction l with
  | nil =>
      simp [upsertSpawn]
  | cons s rest ih =>
      unfold upsertSpawn
      by_cases hp : s.gridPosition = n.gridPosition
      · rw [if_pos hp]
        rw [List.filter_cons_of_pos (by simp [hp])] at h
        rw [List.filter_cons_of_pos (by simp)]
        have hz : (rest.filter fun s => decide (s.gridPosition = n.gridPosition)).length = 0 := by
          simp only [List.length_cons] at h
          omega
        simp [hz]
      · rw [if_neg hp]
        rw [List.filter_cons_of_neg (by simp [hp])] at h
        rw [List.filter_cons_of_neg (by simp [hp])]
        exact ih h

end TileGrid

/-- C8: `addOrUpdateVehicleSpawn` is a no-op out of bounds; in bounds it
stores a spawn at the requested position whose rotation is the input
reduced by a multiple of 360 into `[0, 360)`, whose non-positive size
components are replaced by the defaults 1.5/3.0, and whose empty texture
is replaced by the resolved `car` alias; and a second call at the same
position leaves exactly one spawn there, carrying the latest rotation. -/
theorem claim_C8_vehicle_upsert (g : TileGrid) (s s' : VehicleSpawn) :
    (¬ g.isValidPositionV s.gridPosition = true → g.addOrUpdateVehicleSpawn s = g) ∧
    (g.isValidPositionV s.gridPosition = true →
      ∃ n, (g.addOrUpdateVehicleSpawn s).findVehicleSpawn s.gridPosition = some n ∧
        n.gridPosition = s.gridPosition ∧
        0 ≤ n.rotationDegrees ∧ n.rotationDegrees < 360 ∧
        (∃ k : ℤ, s.rotationDegrees - n.rotationDegrees = 360 * k) ∧
        (0 < s.size.1 → n.size.1 = s.size.1) ∧ (s.size.1 ≤ 0 → n.size.1 = 3 / 2) ∧
        (0 < s.size.2 → n.size.2 = s.size.2) ∧ (s.size.2 ≤ 0 → n.size.2 = 3) ∧
        (s.texturePath = "" → n.texturePath = g.resolveTexturePath "car") ∧
        (s.texturePath ≠ "" → n.texturePath = s.texturePath)) ∧
    (g.isValidPositionV s.gridPosition = true → s'.gridPosition = s.gridPosition →
      (g.spawnsAt s.gridPosition).length ≤ 1 →
      (((g.addOrUpdateVehicleSpawn s).addOrUpdateVehicleSpawn s').spawnsAt
          s.gridPosition).length = 1 ∧
        ∃ n, ((g.addOrUpdateVehicleSpawn s).addOrUpdateVehicleSpawn s').findVehicleSpawn
            s.gridPosition = some n ∧
          n.rotationDegrees = TileGrid.normalizeRotation s'.rotationDegrees) := by
  refine ⟨?_, ?_, ?_⟩
  · intro h
    unfold TileGrid.addOrUpdateVehicleSpawn
    rw [if_neg h]
  · intro hv
    refine ⟨g.normalizeSpawn s, ?_, rfl, TileGrid.normalizeRotation_nonneg _,
      TileGrid.normalizeRotation_lt _, TileGrid.normalizeRotation_congruent _,
      ?_, ?_, ?_, ?_, ?_, ?_⟩
    · rw [TileGrid.addOrUpdate_eq_of_valid g s hv]
      unfold TileGrid.findVehicleSpawn
      exact TileGrid.find?_upsertSpawn g.vehicleSpawns (g.normalizeSpawn s)
    · intro h
      show (if s.size.1 ≤ 0 then (3 / 2 : ℚ) else s.size.1) = s.size.1
      rw [if_neg (not_le.mpr h)]
    · intro h
      show (if s.size.1 ≤ 0 then (3 / 2 : ℚ) else s.size.1) = 3 / 2
      rw [if_pos h]
    · intro h
      show (if s.size.2 ≤ 0 then (3 : ℚ) else s.size.2) = s.size.2
      rw [if_neg (not_le.mpr h)]
    · intro h
      show (if s.size.2 ≤ 0 then (3 : ℚ) else s.size.2) = 3
      rw [if_pos h]
    · intro h
      show (if s.texturePath = "" then g.resolveTexturePath "car" else s.texturePath) =
        g.resolveTexturePath "car"
      rw [if_pos h]
    · intro h
      show (if s.texturePath = "" then g.resolveTexturePath "car" else s.texturePath) =
        s.texturePath
      rw [if_neg h]
  · intro hv hpos hlen
    obtain ⟨p2, r2, t2, sz2⟩ := s'
    have hp : p2 = s.gridPosition := hpos
    subst hp
    unfold TileGrid.spawnsAt at hlen ⊢
    have hg1 := TileGrid.addOrUpdate_eq_of_valid g s hv
    have hv1 : (g.addOrUpdateVehicleSpawn s).isValidPositionV s.gridPosition = true := by
      rw [hg1]
      exact hv
    have hg2 := TileGrid.addOrUpdate_eq_of_valid (g.addOrUpdateVehicleSpawn s)
      ⟨s.gridPosition, r2, t2, sz2⟩ hv1
    have hlen1 : ((g.addOrUpdateVehicleSpawn s).vehicleSpawns.filter
        (fun sp => decide (sp.gridPosition = s.gridPosition))).length ≤ 1 := by
      rw [hg1]
      exact le_of_eq (TileGrid.filter_length_upsertSpawn g.vehicleSpawns (g.normalizeSpawn s) hlen)
    constructor
    · rw [hg2]
      exact TileGrid.filter_length_upsertSpawn (g.addOrUpdateVehicleSpawn s).vehicleSpawns
        ((g.addOrUpdateVehicleSpawn s).normalizeSpawn ⟨s.gridPosition, r2, t2, sz2⟩) hlen1
    · refine ⟨(g.addOrUpdateVehicleSpawn s).normalizeSpawn ⟨s.gridPosition, r2, t2, sz2⟩, ?_, rfl⟩
      unfold TileGrid.findVehicleSpawn
      rw [hg2]
      exact TileGrid.find?_upsertSpawn (g.addOrUpdateVehicleSpawn s).vehicleSpawns
        ((g.addOrUpdateVehicleSpawn s).normalizeSpawn ⟨s.gridPosition, r2, t2, sz2⟩)

/-- Witness for C8 at a concrete grid and two spawns at the same cell. -/
theorem claim_C8_vehicle_upsert_witness :
    exGrid1.isValidPositionV ⟨0, 0, 0⟩ = true ∧
      (exGrid1.spawnsAt ⟨0, 0, 0⟩).length ≤ 1 ∧
      (((exGrid1.addOrUpdateVehicleSpawn ⟨⟨0, 0, 0⟩, -30, "", (0, 5)⟩).addOrUpdateVehicleSpawn
          ⟨⟨0, 0, 0⟩, 400, "x", (1, 1)⟩).spawnsAt ⟨0, 0, 0⟩).length = 1 ∧
      (∃ n, ((exGrid1.addOrUpdateVehicleSpawn ⟨⟨0, 0, 0⟩, -30, "", (0, 5)⟩).addOrUpdateVehicleSpawn
          ⟨⟨0, 0, 0⟩, 400, "x", (1, 1)⟩).findVehicleSpawn ⟨0, 0, 0⟩ = some n ∧
        n.rotationDegrees = TileGrid.normalizeRotation 400) := by
  have h := (claim_C8_vehicle_upsert exGrid1 ⟨⟨0, 0, 0⟩, -30, "", (0, 5)⟩
    ⟨⟨0, 0, 0⟩, 400, "x", (1, 1)⟩).2.2 (by decide) (by decide) (by decide)
  exact ⟨by decide, by decide, h.1, h.2⟩

/-! Lemmas about the occupancy query. -/

theorem hasGroundSupport_eq_spec (g : TileGrid) (q : IVec3) :
    g.hasGroundSupport q = groundSupportSpec g q := by
  unfold TileGrid.hasGroundSupport groundSupportSpec TileGrid.hasSolidTopAt
  by_cases hz : q.z - 1 < 0
  · rw [if_pos hz]
    have hnone : g.getTile ⟨q.x, q.y, q.z - 1⟩ = none := by
      unfold TileGrid.getTile
      rw [if_neg]
      intro hvp
      obtain ⟨_, _, _, _, hz0, _⟩ := (g.isValidPosition_iff _ _ _).mp hvp
      have hz0' : (0 : Int) ≤ q.z - 1 := hz0
      omega
    rw [hnone]
  · rw [if_neg hz]
    cases g.getTile ⟨q.x, q.y, q.z - 1⟩ <;> rfl

theorem wallWalkableAt_of_getTile {g : TileGrid} {p : IVec3} {t : Tile}
    (h : g.getTile p = some t) (d : WallDirection) :
    g.wallWalkableAt p d = t.isWallWalkable d := by
  unfold TileGrid.wallWalkableAt
  rw [h]

theorem wallCheck_eq (a b c : Bool) :
    (if ¬ a = true ∨ ¬ b = true then false else c) = (a && b && c) := by
  cases a <;> cases b <;> simp

theorem canOccupyCells_eq_spec (g : TileGrid) (hWF : g.WF) (a b : IVec3) :
    g.canOccupyCells a b = canOccupySpecCells g a b := by
  unfold TileGrid.canOccupyCells canOccupySpecCells
  simp only [TileGrid.isValidPositionV]
  by_cases hva : g.isValidPosition a.x a.y a.z = true
  swap
  · rw [Bool.not_eq_true] at hva
    rw [if_pos (by simp [hva]), hva]
    simp
  by_cases hvb : g.isValidPosition b.x b.y b.z = true
  swap
  · rw [Bool.not_eq_true] at hvb
    rw [if_neg (by simp [hva]), if_pos (by simp [hvb]), hva, hvb]
    simp
  rw [if_neg (by simp [hva]), if_neg (by simp [hvb]), hva, hvb]
  simp only [Bool.true_and]
  by_cases hab : a = b
  · rw [if_pos hab, if_pos hab, hasGroundSupport_eq_spec, hab]
  rw [if_neg hab, if_neg hab]
  by_cases hdz : b.z - a.z = 0
  swap
  · rw [if_pos hdz, decide_eq_false hdz]
    simp
  rw [if_neg (not_not_intro hdz), decide_eq_true hdz, Bool.true_and]
  have hne : a.x ≠ b.x ∨ a.y ≠ b.y ∨ a.z ≠ b.z := by
    by_contra hcon
    push_neg at hcon
    obtain ⟨h1, h2, h3⟩ := hcon
    obtain ⟨ax, ay, az⟩ := a
    obtain ⟨bx, b2, bz⟩ := b
    exact hab (by simp_all)
  by_cases hman : (b.x - a.x).natAbs + (b.y - a.y).natAbs = 1
  swap
  · have hgt : 1 < (b.x - a.x).natAbs + (b.y - a.y).natAbs := by omega
    rw [if_pos hgt, decide_eq_false hman]
    simp
  rw [if_neg (by omega), decide_eq_true hman, Bool.true_and]
  obtain ⟨ta, hta⟩ := g.getTile_isSome_of_valid hWF (p := a) hva
  obtain ⟨tb, htb⟩ := g.getTile_isSome_of_valid hWF (p := b) hvb
  have hcases : (b.x - a.x = 1 ∧ b.y - a.y = 0) ∨ (b.x - a.x = -1 ∧ b.y - a.y = 0) ∨
      (b.x - a.x = 0 ∧ b.y - a.y = 1) ∨ (b.x - a.x = 0 ∧ b.y - a.y = -1) := by
    omega
  rcases hcases with ⟨h1, h2⟩ | ⟨h1, h2⟩ | ⟨h1, h2⟩ | ⟨h1, h2⟩ <;>
    rw [h1, h2] <;>
    norm_num [TileGrid.stepDirs, facingDirs, hta, htb, wallWalkableAt_of_getTile hta,
      wallWalkableAt_of_getTile htb, hasGroundSupport_eq_spec, wallCheck_eq]

/-- C1: `canOccupy(from, to)` succeeds exactly when both positions convert
via `worldToGrid` to in-bounds cells and either (a) the cells are equal
and have ground support — the tile at `(x, y, z-1)` exists with a solid
top, so a cell at layer 0 never qualifies — or (b) the cells differ by a
zero-`z` delta of horizontal Manhattan distance exactly 1, both facing
boundary walls across the shared edge are walkable, and the destination
has ground support; every other case fails. -/
theorem claim_C1_canOccupy_spec (g : TileGrid) (hWF : g.WF) :
    (∀ q : IVec3, q.z = 0 → g.hasGroundSupport q = false) ∧
    (∀ q : IVec3, g.hasGroundSupport q = groundSupportSpec g q) ∧
    (∀ fromPos toPos : Vec3, g.canOccupy fromPos toPos = canOccupySpec g fromPos toPos) := by
  refine ⟨?_, hasGroundSupport_eq_spec g, ?_⟩
  · intro q hq
    unfold TileGrid.hasGroundSupport
    rw [if_pos (by omega)]
  · intro fromPos toPos
    exact canOccupyCells_eq_spec g hWF (g.worldToGrid fromPos) (g.worldToGrid toPos)

/-- Witness for C1 at a concrete grid and world positions. -/
theorem claim_C1_canOccupy_spec_witness :
    exGridC2.WF ∧
      exGridC2.canOccupy (exGridC2.gridToWorld ⟨0, 0, 1⟩) (exGridC2.gridToWorld ⟨0, 1, 1⟩) =
        canOccupySpec exGridC2 (exGridC2.gridToWorld ⟨0, 0, 1⟩) (exGridC2.gridToWorld ⟨0, 1, 1⟩) :=
  ⟨by decide,
   (claim_C1_canOccupy_spec exGridC2 (by decide)).2.2 (exGridC2.gridToWorld ⟨0, 0, 1⟩)
     (exGridC2.gridToWorld ⟨0, 1, 1⟩)⟩

/-- C2 counterexample: in `exGridC2` the source cell `(0,0,1)` has a
non-walkable North wall (and every other wall of the pair is walkable,
with ground support below the destination), yet the +Y step from
`(0,0,1)` to `(0,1,1)` succeeds — `canOccupy` consults the source's South
(+Y) wall and the destination's North (-Y) wall, not source-North /
destination-South as the claim states. -/
theorem claim_C2_counterexample :
    exGridC2.wallWalkableAt ⟨0, 0, 1⟩ .north = false ∧
      exGridC2.wallWalkableAt ⟨0, 1, 1⟩ .south = true ∧
      exGridC2.canOccupy (exGridC2.gridToWorld ⟨0, 0, 1⟩) (exGridC2.gridToWorld ⟨0, 1, 1⟩) =
        true := by
  have ht : (0 : ℚ) < exGridC2.tileSize := by decide
  refine ⟨by decide, by decide, ?_⟩
  show exGridC2.canOccupyCells (exGridC2.worldToGrid (exGridC2.gridToWorld ⟨0, 0, 1⟩))
      (exGridC2.worldToGrid (exGridC2.gridToWorld ⟨0, 1, 1⟩)) = true
  rw [worldToGrid_gridToWorld exGridC2 ht, worldToGrid_gridToWorld exGridC2 ht]
  decide

/-- C2 (amended): under the `Tile.hpp` direction table (North = -Y,
South = +Y, East = -X, West = +X), a +Y step checks the source's South
wall and the destination's North wall; -Y checks source North /
destination South; +X checks source West / destination East; -X checks
source East / destination West.  In each case the step succeeds exactly
when both facing walls are walkable and the destination has ground
support, so it fails whenever either wall is not walkable regardless of
the other. -/
theorem claim_C2_amended (g : TileGrid) (hWF : g.WF) (a b : IVec3)
    (hva : g.isValidPositionV a = true) (hvb : g.isValidPositionV b = true) :
    (∀ s e : Vec3, g.canOccupy s e = g.canOccupyCells (g.worldToGrid s) (g.worldToGrid e)) ∧
    (b = ⟨a.x, a.y + 1, a.z⟩ →
      g.canOccupyCells a b =
        (g.wallWalkableAt a .south && g.wallWalkableAt b .north && g.hasGroundSupport b)) ∧
    (b = ⟨a.x, a.y - 1, a.z⟩ →
      g.canOccupyCells a b =
        (g.wallWalkableAt a .north && g.wallWalkableAt b .south && g.hasGroundSupport b)) ∧
    (b = ⟨a.x + 1, a.y, a.z⟩ →
      g.canOccupyCells a b =
        (g.wallWalkableAt a .west && g.wallWalkableAt b .east && g.hasGroundSupport b)) ∧
    (b = ⟨a.x - 1, a.y, a.z⟩ →
      g.canOccupyCells a b =
        (g.wallWalkableAt a .east && g.wallWalkableAt b .west && g.hasGroundSupport b)) := by
  refine ⟨fun _ _ => rfl, ?_, ?_, ?_, ?_⟩ <;>
  · intro hb
    subst hb
    rw [canOccupyCells_eq_spec g hWF]
    unfold canOccupySpecCells
    rw [(hva : g.isValidPositionV a = true), (hvb : g.isValidPositionV _ = true)]
    rw [if_neg (by
      intro h
      have h2 := congrArg IVec3.y h
      have h3 := congrArg IVec3.x h
      simp only at h2 h3
      omega)]
    norm_num [facingDirs, ← hasGroundSupport_eq_spec]

/-- Witness for the amended C2 at a concrete +Y step. -/
theorem claim_C2_amended_witness :
    exGridC2.canOccupyCells ⟨0, 0, 1⟩ ⟨0, 1, 1⟩ =
      (exGridC2.wallWalkableAt ⟨0, 0, 1⟩ .south && exGridC2.wallWalkableAt ⟨0, 1, 1⟩ .north &&
        exGridC2.hasGroundSupport ⟨0, 1, 1⟩) :=
  (claim_C2_amended exGridC2 (by decide) ⟨0, 0, 1⟩ ⟨0, 1, 1⟩ (by decide) (by decide)).2.1
    (by decide)

/-- C5: `resize(newSize)` returns false leaving the grid unchanged when
any dimension is ≤ 0; on success the grid takes the new size, every cell
keeps the wall and top-surface content copied (structurally, via
`Tile::copyFrom`) from the old grid where the old grid had that cell, and
default tile state elsewhere; shrinking drops out-of-range cells without
error.  (`TileGrid::resize` itself is not among the provided sources; the
definition is modelled from the spec, with `Tile::copyFrom` taken from
src/src/Tile.cpp.) -/
theorem claim_C5_resize_overlap (g : TileGrid) (newSize : IVec3) :
    ((newSize.x ≤ 0 ∨ newSize.y ≤ 0 ∨ newSize.z ≤ 0) → g.resize newSize = (false, g)) ∧
    (0 < newSize.x → 0 < newSize.y → 0 < newSize.z →
      (g.resize newSize).1 = true ∧
      (g.resize newSize).2.gridSize = newSize ∧
      (g.resize newSize).2.tileSize = g.tileSize ∧
      (g.resize newSize).2.vehicleSpawns = g.vehicleSpawns ∧
      (g.resize newSize).2.textureAliases = g.textureAliases ∧
      ∀ p : IVec3, (g.resize newSize).2.isValidPositionV p = true →
        (g.resize newSize).2.getTile p =
          some (match g.getTile p with
                | some old => (defaultTile p).copyFrom old
                | none => defaultTile p)) := by
  constructor
  · intro h
    unfold TileGrid.resize
    rw [if_pos h]
  · intro hx hy hz
    have hcond : ¬ (newSize.x ≤ 0 ∨ newSize.y ≤ 0 ∨ newSize.z ≤ 0) := by omega
    have hres : g.resize newSize =
        (true,
         { g with
            gridSize := newSize
            tiles := buildTiles newSize.x.toNat newSize.y.toNat newSize.z.toNat fun x y z =>
              match g.getTile ⟨(x : Int), (y : Int), (z : Int)⟩ with
              | some old => (defaultTile ⟨(x : Int), (y : Int), (z : Int)⟩).copyFrom old
              | none => defaultTile ⟨(x : Int), (y : Int), (z : Int)⟩ }) := by
      unfold TileGrid.resize
      rw [if_neg hcond]
    rw [hres]
    refine ⟨rfl, rfl, rfl, rfl, rfl, ?_⟩
    intro p hv
    have hv' := hv
    rw [TileGrid.getTile_buildTiles (f := fun x y z =>
      match g.getTile ⟨(x : Int), (y : Int), (z : Int)⟩ with
      | some old => (defaultTile ⟨(x : Int), (y : Int), (z : Int)⟩).copyFrom old
      | none => defaultTile ⟨(x : Int), (y : Int), (z : Int)⟩) rfl hv']
    obtain ⟨hx0, _, hy0, _, hz0, _⟩ :=
      (TileGrid.isValidPosition_iff _ p.x p.y p.z).mp hv
    have hp : (⟨((p.x.toNat : Nat) : Int), ((p.y.toNat : Nat) : Int),
        ((p.z.toNat : Nat) : Int)⟩ : IVec3) = p := by
      obtain ⟨px, py, pz⟩ := p
      simp only at hx0 hy0 hz0
      simp [Int.toNat_of_nonneg hx0, Int.toNat_of_nonneg hy0, Int.toNat_of_nonneg hz0]
    rw [hp]

/-- Witness for C5: growing the 4x4x2 example grid to 6x6x2 keeps the
painted cell's content, and shrinking to 2x2x2 succeeds. -/
theorem claim_C5_resize_overlap_witness :
    (exGrid44.resize ⟨6, 6, 2⟩).1 = true ∧
      (exGrid44.resize ⟨6, 6, 2⟩).2.getTile ⟨1, 1, 0⟩ =
        some ((match exGrid44.getTile ⟨1, 1, 0⟩ with
               | some old => (defaultTile ⟨1, 1, 0⟩).copyFrom old
               | none => defaultTile ⟨1, 1, 0⟩)) ∧
      (exGrid44.resize ⟨2, 2, 2⟩).1 = true := by
  have h6 := (claim_C5_resize_overlap exGrid44 ⟨6, 6, 2⟩).2 (by decide) (by decide) (by decide)
  have h2 := (claim_C5_resize_overlap exGrid44 ⟨2, 2, 2⟩).2 (by decide) (by decide) (by decide)
  exact ⟨h6.1, h6.2.2.2.2.2 ⟨1, 1, 0⟩ (by decide), h2.1⟩

/-! Definitional equations of the vehicle token scan and the vehicle
line handler (stated once so later proofs can rewrite with them). -/

theorem parseVehicleProps_nil (g : TileGrid) (s : VehicleSpawnDefinition) (ok : Bool) :
    LevelSerialization.parseVehicleProps g s ok [] = if ok then some s else none := rfl

theorem parseVehicleProps_cons_rotation (g : TileGrid) (s : VehicleSpawnDefinition)
    (ok : Bool) (v : ℚ) (rest : List VehicleProp) :
    LevelSerialization.parseVehicleProps g s ok (.rotation v :: rest) =
      LevelSerialization.parseVehicleProps g { s with rotationDegrees := v } ok rest := rfl

theorem parseVehicleProps_cons_texture (g : TileGrid) (s : VehicleSpawnDefinition)
    (ok : Bool) (id : String) (rest : List VehicleProp) :
    LevelSerialization.parseVehicleProps g s ok (.texture id :: rest) =
      LevelSerialization.parseVehicleProps g
        { s with texturePath := g.resolveTexturePath (trimCopy id) } ok rest := rfl

theorem parseVehicleProps_cons_size (g : TileGrid) (s : VehicleSpawnDefinition)
    (ok : Bool) (w l : ℚ) (rest : List VehicleProp) :
    LevelSerialization.parseVehicleProps g s ok (.size w l :: rest) =
      (if w ≤ 0 ∨ l ≤ 0 then LevelSerialization.parseVehicleProps g s false rest
       else LevelSerialization.parseVehicleProps g { s with size := (w, l) } ok rest) := rfl

theorem processLine_vehicle_eq (g : TileGrid) (data : LevelData) (x y z : Int)
    (props : List VehicleProp) :
    LevelSerialization.processLine g data (.vehicle x y z props) =
      (match LevelSerialization.parseVehicleProps g
          { gridPosition := ⟨x, y, z⟩, rotationDegrees := 0, texturePath := "",
            size := (3 / 2, 3) } true props with
       | none => (g, data)
       | some spawn =>
           if ¬ g.isValidPositionV spawn.gridPosition = true then (g, data)
           else
             match g.getTile spawn.gridPosition with
             | none => (g, data)
             | some supportTile =>
                 if ¬ supportTile.isTopSolid = true then (g, data)
                 else (g, ⟨LevelSerialization.upsertSpawnDef data.vehicleSpawns spawn⟩)) := rfl

/-- The vehicle token scan never changes the pending spawn's grid
position. -/
theorem parseVehicleProps_pos (g : TileGrid) (props : List VehicleProp) :
    ∀ (s : VehicleSpawnDefinition) (ok : Bool) (s' : VehicleSpawnDefinition),
      LevelSerialization.parseVehicleProps g s ok props = some s' →
        s'.gridPosition = s.gridPosition := by
  induction props with
  | nil =>
      intro s ok s' h
      rw [parseVehicleProps_nil] at h
      cases ok with
      | true => rw [if_pos rfl] at h; cases h; rfl
      | false => simp at h
  | cons p rest ih =>
      intro s ok s' h
      cases p with
      | rotation v =>
          rw [parseVehicleProps_cons_rotation] at h
          exact ih { s with rotationDegrees := v } ok s' h
      | texture id =>
          rw [parseVehicleProps_cons_texture] at h
          exact ih { s with texturePath := g.resolveTexturePath (trimCopy id) } ok s' h
      | size w l =>
          rw [parseVehicleProps_cons_size] at h
          split at h
          · exact ih s false s' h
          · exact ih { s with size := (w, l) } ok s' h

/-- Helper: the `vehicle` branch of `LevelSerialization::loadLevel`
leaves the data untouched when the target tile is missing or not solid. -/
theorem vehicleLine_no_support (g : TileGrid) (data : LevelData) (x y z : Int)
    (props : List VehicleProp)
    (h : g.hasSolidTopAt ⟨x, y, z⟩ = false) :
    LevelSerialization.processLine g data (.vehicle x y z props) = (g, data) := by
  rw [processLine_vehicle_eq]
  rcases hparse : LevelSerialization.parseVehicleProps g
      { gridPosition := ⟨x, y, z⟩, rotationDegrees := 0, texturePath := "",
        size := (3 / 2, 3) } true props with _ | spawn
  · rfl
  · show (if ¬ g.isValidPositionV spawn.gridPosition = true then (g, data)
          else
            match g.getTile spawn.gridPosition with
            | none => (g, data)
            | some supportTile =>
                if ¬ supportTile.isTopSolid = true then (g, data)
                else (g, ⟨LevelSerialization.upsertSpawnDef data.vehicleSpawns spawn⟩)) =
        (g, data)
    have hpos : spawn.gridPosition = (⟨x, y, z⟩ : IVec3) :=
      parseVehicleProps_pos g props _ true spawn hparse
    by_cases hv : g.isValidPositionV spawn.gridPosition = true
    swap
    · rw [if_pos hv]
    · rw [if_neg (not_not_intro hv)]
      unfold TileGrid.hasSolidTopAt at h
      rw [hpos]
      rcases hti : g.getTile ⟨x, y, z⟩ with _ | t
      · rfl
      · rw [hti] at h
        have h' : t.isTopSolid = false := h
        show (if ¬ t.isTopSolid = true then (g, data)
              else (g, ⟨LevelSerialization.upsertSpawnDef data.vehicleSpawns spawn⟩)) = (g, data)
        rw [if_pos (by simp [h'])]

/-- C6 (amended): in `LevelSerialization::loadLevel` a `vehicle` directive
whose target tile is missing or lacks a solid top surface is rejected
with a per-line error and adds or updates no spawn; `TileGrid::loadFromFile`
performs no such check and adds the spawn (see the counterexample). -/
theorem claim_C6_vehicle_support (g : TileGrid) (data : LevelData) (x y z : Int)
    (props : List VehicleProp)
    (h : g.hasSolidTopAt ⟨x, y, z⟩ = false) :
    LevelSerialization.processLine g data (.vehicle x y z props) = (g, data) :=
  vehicleLine_no_support g data x y z props h

/-- Witness for the amended C6: a vehicle line on the unsupported cell of
`exGridDefault` leaves the level data unchanged. -/
theorem claim_C6_vehicle_support_witness :
    exGridDefault.hasSolidTopAt ⟨0, 0, 0⟩ = false ∧
      LevelSerialization.processLine exGridDefault exData1 (.vehicle 0 0 0 []) =
        (exGridDefault, exData1) :=
  ⟨by decide, claim_C6_vehicle_support exGridDefault exData1 0 0 0 [] (by decide)⟩

/-- C6 counterexample: `TileGrid::loadFromFile` accepts a `vehicle` line
whose target tile has no solid top — after loading, one spawn is stored
although the tile at its position is not solid. -/
theorem claim_C6_counterexample :
    (TileGrid.loadFromFileLines [Line.vehicle 0 0 0 [VehicleProp.size 2 4]] exGridDefault).1 =
        true ∧
      (TileGrid.loadFromFileLines [Line.vehicle 0 0 0 [VehicleProp.size 2 4]]
          exGridDefault).2.vehicleSpawns.length = 1 ∧
      (TileGrid.loadFromFileLines [Line.vehicle 0 0 0 [VehicleProp.size 2 4]]
          exGridDefault).2.hasSolidTopAt ⟨0, 0, 0⟩ = false := by
  decide

theorem rebuildTiles_none {g : TileGrid}
    (h : g.gridSize.x ≤ 0 ∨ g.gridSize.y ≤ 0 ∨ g.gridSize.z ≤ 0) :
    g.rebuildTiles = none := by
  unfold TileGrid.rebuildTiles
  rw [if_pos h]

/-- C4 counterexample: loading a file whose only line is `grid 0 0 0`
into a grid holding one spawn returns false but does not leave the
previous state intact: the grid size is overwritten with the invalid
parsed value and the vehicle spawn list is cleared. -/
theorem claim_C4_counterexample :
    (LevelSerialization.loadLevel [Line.grid 0 0 0] exGrid1 exData1).1 = false ∧
      (LevelSerialization.loadLevel [Line.grid 0 0 0] exGrid1 exData1).2.1.gridSize ≠
        exGrid1.gridSize ∧
      (LevelSerialization.loadLevel [Line.grid 0 0 0] exGrid1 exData1).2.2 ≠ exData1 := by
  decide

/-- C4 (amended): a load that fails because the file cannot be opened
returns false and leaves all state unchanged; a load whose parsed
configuration yields invalid grid dimensions returns false with the old
tile array kept, but with the grid size, tile size and alias table
already overwritten by the pass-1 values and the vehicle spawn list
cleared. -/
theorem claim_C4_failed_load (g : TileGrid) (data : LevelData) (lines : List Line) :
    (LevelSerialization.loadLevelFile none g data = (false, g, data)) ∧
    ((LevelSerialization.pass1Grid lines g).gridSize.x ≤ 0 ∨
        (LevelSerialization.pass1Grid lines g).gridSize.y ≤ 0 ∨
        (LevelSerialization.pass1Grid lines g).gridSize.z ≤ 0 →
      LevelSerialization.loadLevel lines g data =
          (false, LevelSerialization.pass1Grid lines g, ⟨[]⟩) ∧
        (LevelSerialization.pass1Grid lines g).tiles = g.tiles ∧
        (LevelSerialization.pass1Grid lines g).vehicleSpawns = g.vehicleSpawns) := by
  refine ⟨rfl, ?_⟩
  intro h
  refine ⟨?_, rfl, rfl⟩
  unfold LevelSerialization.loadLevel
  rw [rebuildTiles_none h]

/-- Witness for the amended C4 at the concrete file `grid 0 0 0`. -/
theorem claim_C4_failed_load_witness :
    ((LevelSerialization.pass1Grid [Line.grid 0 0 0] exGrid1).gridSize.x ≤ 0 ∨
        (LevelSerialization.pass1Grid [Line.grid 0 0 0] exGrid1).gridSize.y ≤ 0 ∨
        (LevelSerialization.pass1Grid [Line.grid 0 0 0] exGrid1).gridSize.z ≤ 0) ∧
      (LevelSerialization.loadLevel [Line.grid 0 0 0] exGrid1 exData1 =
          (false, LevelSerialization.pass1Grid [Line.grid 0 0 0] exGrid1, ⟨[]⟩) ∧
        (LevelSerialization.pass1Grid [Line.grid 0 0 0] exGrid1).tiles = exGrid1.tiles ∧
        (LevelSerialization.pass1Grid [Line.grid 0 0 0] exGrid1).vehicleSpawns =
          exGrid1.vehicleSpawns) :=
  ⟨by decide, (claim_C4_failed_load exGrid1 exData1 [Line.grid 0 0 0]).2 (by decide)⟩

/-- C3 (bug evidence): `saveLevel` writes all vehicle lines before the
tile lines, while `loadLevel` validates each vehicle line in file order
against the freshly rebuilt (all-default, nowhere-solid) grid — so every
spawn the writer emits is rejected on reload.  On `exGrid1` (one solid
cell) with one spawn on that cell, the save/load round trip returns true
and reproduces the grid content but comes back with an empty vehicle
spawn list. -/
theorem claim_C3_roundtrip_drops_spawns :
    exData1.vehicleSpawns ≠ [] ∧
      LevelSerialization.loadLevel (LevelSerialization.saveLevel exGrid1 exData1) exGrid1
          exData1 =
        (true, exGrid1, ⟨[]⟩) := by
  constructor
  · decide
  · have hsave : LevelSerialization.saveLevel exGrid1 exData1 =
        [Line.grid 1 1 1, Line.tileSize 3,
         Line.vehicle 0 0 0 [VehicleProp.rotation (round2 90),
           VehicleProp.size (round2 (3 / 2)) (round2 3)],
         Line.tile 0 0 0 [("top", "solid")]] := rfl
    rw [hsave]
    have s1 : LevelSerialization.processLine exGridDefault ⟨[]⟩ (Line.grid 1 1 1) =
        (exGridDefault, ⟨[]⟩) := rfl
    have s2 : LevelSerialization.processLine exGridDefault ⟨[]⟩ (Line.tileSize 3) =
        (exGridDefault, ⟨[]⟩) := rfl
    have s3 : LevelSerialization.processLine exGridDefault ⟨[]⟩
        (Line.vehicle 0 0 0 [VehicleProp.rotation (round2 90),
          VehicleProp.size (round2 (3 / 2)) (round2 3)]) = (exGridDefault, ⟨[]⟩) :=
      vehicleLine_no_support exGridDefault ⟨[]⟩ 0 0 0 _ (by decide)
    have s4 : LevelSerialization.processLine exGridDefault ⟨[]⟩
        (Line.tile 0 0 0 [("top", "solid")]) = (exGrid1, ⟨[]⟩) := by
      decide
    show (true,
        ([Line.grid 1 1 1, Line.tileSize 3,
          Line.vehicle 0 0 0 [VehicleProp.rotation (round2 90),
            VehicleProp.size (round2 (3 / 2)) (round2 3)],
          Line.tile 0 0 0 [("top", "solid")]].foldl
            (fun (acc : TileGrid × LevelData) l => LevelSerialization.processLine acc.1 acc.2 l)
            (exGridDefault, (⟨[]⟩ : LevelData))).1,
        ([Line.grid 1 1 1, Line.tileSize 3,
          Line.vehicle 0 0 0 [VehicleProp.rotation (round2 90),
            VehicleProp.size (round2 (3 / 2)) (round2 3)],
          Line.tile 0 0 0 [("top", "solid")]].foldl
            (fun (acc : TileGrid × LevelData) l => LevelSerialization.processLine acc.1 acc.2 l)
            (exGridDefault, (⟨[]⟩ : LevelData))).2) = (true, exGrid1, ⟨[]⟩)
    simp only [List.foldl_cons, List.foldl_nil, s1, s2, s3, s4]
